import Mathlib

/-!
# Verification of the tic-tac-toe backend's match core

A shallow embedding of the outcome scripter (`src/botLogic.js`), the match
state machine (`class Game` and its callers in the server source embedded in
`src/BOT-SPECIFICATIONS.md`), and the automated-opponent controller
(`src/botLogic.js`), together with theorems settling the spec's claims about
them.  JavaScript `Math.random()` draws are modelled as explicit oracle
arguments; Maps keyed by identity are modelled per key, since no code path
couples two keys.
-/

namespace TTT

/-- A win/loss token of an outcome script (the `'W'` / `'L'` strings of
`botLogic.js`). -/
inductive Token
  | W
  | L
deriving DecidableEq, Repr

/-- `PATTERN_50_SATS` (`src/botLogic.js` line 19): `W-L-W-W-L-L-L-W-L`. -/
def PATTERN_50_SATS : List Token :=
  [Token.W, Token.L, Token.W, Token.W, Token.L, Token.L, Token.L, Token.W, Token.L]

/-- `PATTERN_300_PLUS` (`src/botLogic.js` line 20): `L-W-L-W-L-L-W-L-W`. -/
def PATTERN_300_PLUS : List Token :=
  [Token.L, Token.W, Token.L, Token.W, Token.L, Token.L, Token.W, Token.L, Token.W]

/-- One identity's record in the `playerHistory` map (`botLogic.js` lines 56–62). -/
structure PlayerHist where
  patternIndex50 : Nat
  patternIndex300 : Nat
  gamesPlayed : Nat
deriving DecidableEq, Repr

/-- The record `playerHistory.set` installs on first encounter. -/
def PlayerHist.fresh : PlayerHist := ⟨0, 0, 0⟩

/-- One identity's record in the `betHistory` map (`botLogic.js` lines 85–92). -/
structure BetInfo where
  lastBet : Option Nat
  lastResult : Option Token
  gameCount : Nat
  consecutiveSameBet : Nat
deriving DecidableEq, Repr

/-- The record `betHistory.set` installs on first encounter. -/
def BetInfo.fresh : BetInfo := ⟨none, none, 0, 0⟩

/-- The slice of the two global maps belonging to one opponent identity:
`playerHistory.get(addr)` and `betHistory.get(addr)` (`none` = key absent). -/
structure ScripterState where
  hist : Option PlayerHist
  bet : Option BetInfo
deriving DecidableEq, Repr

/-- The state of an identity the scripter has never seen. -/
def ScripterState.fresh : ScripterState := ⟨none, none⟩

/-- The identity's 50-sats script cursor as the code reads it (get-or-create). -/
def ScripterState.idx50 (s : ScripterState) : Nat :=
  (s.hist.getD PlayerHist.fresh).patternIndex50

/-- The identity's 300-plus script cursor as the code reads it. -/
def ScripterState.idx300 (s : ScripterState) : Nat :=
  (s.hist.getD PlayerHist.fresh).patternIndex300

/-- The identity's bet record as the code reads it (get-or-create). -/
def ScripterState.betInfo (s : ScripterState) : BetInfo :=
  s.bet.getD BetInfo.fresh

/-- The revenge guard of `determineOutcome` (`botLogic.js` lines 98–100):
`betInfo.lastBet === betAmount && betInfo.lastResult === 'L' && betInfo.gameCount === 1`. -/
def revengeFires (betAmount : Nat) (s : ScripterState) : Prop :=
  s.betInfo.lastBet = some betAmount ∧ s.betInfo.lastResult = some Token.L ∧
    s.betInfo.gameCount = 1

instance (betAmount : Nat) (s : ScripterState) : Decidable (revengeFires betAmount s) := by
  unfold revengeFires; infer_instance

/-- `BotPlayer.determineOutcome` (`src/botLogic.js` lines 52–146) acting on the
per-identity slice of `playerHistory` / `betHistory`.  `rnd` stands for the
`Math.random() > 0.5` coin drawn on the untracked-identity and
unconfigured-amount paths; the tracked 50-sats and 300-plus paths never read
it.  The returned `Bool` is the value of `this.shouldWin`. -/
def determineOutcome (rnd : Bool) (addr : String) (betAmount : Nat)
    (s : ScripterState) : Bool × ScripterState :=
  if addr = "" then (rnd, s)
  else
    let hist := s.hist.getD PlayerHist.fresh
    let s0 : ScripterState := { s with hist := some hist }
    if betAmount = 50 then
      let outcome := PATTERN_50_SATS.getD (hist.patternIndex50 % PATTERN_50_SATS.length) Token.L
      let hist1 : PlayerHist := { hist with patternIndex50 := hist.patternIndex50 + 1,
                                            gamesPlayed := hist.gamesPlayed + 1 }
      (outcome == Token.W, { s0 with hist := some hist1 })
    else if 300 ≤ betAmount then
      let betInfo := s0.bet.getD BetInfo.fresh
      let s1 : ScripterState := { s0 with bet := some betInfo }
      if betInfo.lastBet = some betAmount ∧ betInfo.lastResult = some Token.L ∧
          betInfo.gameCount = 1 then
        let betInfo1 : BetInfo := { betInfo with lastResult := some Token.W,
                                                 gameCount := betInfo.gameCount + 1 }
        (false, { s1 with bet := some betInfo1 })
      else
        let outcome :=
          PATTERN_300_PLUS.getD (hist.patternIndex300 % PATTERN_300_PLUS.length) Token.L
        let hist1 : PlayerHist := { hist with patternIndex300 := hist.patternIndex300 + 1,
                                              gamesPlayed := hist.gamesPlayed + 1 }
        let betInfo1 : BetInfo := { betInfo with lastBet := some betAmount,
                                                 lastResult := some outcome,
                                                 gameCount := betInfo.gameCount + 1 }
        (outcome == Token.W, { s1 with hist := some hist1, bet := some betInfo1 })
    else (rnd, s0)

/-- The verdict stream of consecutive scripted decisions for one identity. -/
def scripterTrace (rnd : Bool) (addr : String) : List Nat → ScripterState → List Bool
  | [], _ => []
  | a :: rest, s =>
    let r := determineOutcome rnd addr a s
    r.1 :: scripterTrace rnd addr rest r.2

/-- The identity's state after a run of consecutive scripted decisions. -/
def runScripter (rnd : Bool) (addr : String) : List Nat → ScripterState → ScripterState
  | [], s => s
  | a :: rest, s => runScripter rnd addr rest (determineOutcome rnd addr a s).2

/-- The revenge override fires on the `k`-th decision of a run. -/
def revengeAt (rnd : Bool) (addr : String) (amts : List Nat) (s0 : ScripterState)
    (k : Nat) : Prop :=
  ∃ a, amts.get? k = some a ∧ addr ≠ "" ∧ 300 ≤ a ∧
    revengeFires a (runScripter rnd addr (amts.take k) s0)



/-- A participant's mark (`'X'` / `'O'`). -/
inductive Mark
  | X
  | O
deriving DecidableEq, Repr, Fintype

/-- One board cell: empty (`null`) or holding a mark. -/
abbrev Cell := Option Mark

/-- The 3×3 board, row-major cells 0..8 (`Array(9).fill(null)`). -/
abbrev Board := Fin 9 → Cell

/-- The board a fresh match starts with. -/
def emptyBoard : Board := fun _ => none

/-- `board[n]` under JavaScript indexing: out-of-range reads give `undefined`. -/
def boardGet (b : Board) (n : Nat) : Cell :=
  if h : n < 9 then b ⟨n, h⟩ else none

/-- `board[n] = c` for an in-range index (all writes are behind the range guard). -/
def boardSet (b : Board) (n : Nat) (c : Cell) : Board :=
  if h : n < 9 then Function.update b ⟨n, h⟩ c else b

/-- Match lifecycle states (`this.status`). -/
inductive Status
  | waiting
  | ready
  | playing
  | finished
deriving DecidableEq, Repr

/-- `this.winner`: `null`, `'draw'`, or a winning participant's id. -/
inductive GameWinner
  | undecided
  | drawn
  | player (pid : String)
deriving DecidableEq, Repr

/-- One entry of `this.players` (insertion-ordered object). -/
structure PlayerSlot where
  pid : String
  lightningAddress : String
  isBot : Bool
  symbol : Mark
  ready : Bool
deriving DecidableEq, Repr

/-- The `Game` instance state (server source lines 1000–1015). -/
structure Game where
  betAmount : Nat
  players : List PlayerSlot
  board : Board
  turn : Option String
  status : Status
  winner : GameWinner
  winLine : List Nat
  turnTimerArmed : Bool
  isFirstTurn : Bool
  moveCount : Nat
  startingPlayer : Option String
  turnDeadlineAt : Option Nat
deriving DecidableEq

/-- `new Game(id, betAmount)` (the match id lives outside this structure). -/
def newGame (betAmount : Nat) : Game :=
  { betAmount := betAmount, players := [], board := emptyBoard, turn := none,
    status := Status.waiting, winner := GameWinner.undecided, winLine := [],
    turnTimerArmed := false, isFirstTurn := true, moveCount := 0,
    startingPlayer := none, turnDeadlineAt := none }

/-- `Game.addPlayer` (lines 1017–1036).  `coin` models the `Math.random() < 0.5`
starter coin flip drawn when the second slot fills (`true` picks slot 0). -/
def addPlayer (g : Game) (socketId lightningAddress : String) (isBot : Bool) (coin : Bool) :
    Mark × Game :=
  let symbol := if g.players.length = 0 then Mark.X else Mark.O
  let g1 : Game :=
    { g with players := g.players ++ [⟨socketId, lightningAddress, isBot, symbol, false⟩] }
  if g1.players.length = 2 then
    let ids := g1.players.map (·.pid)
    let t := ids.getD (if coin then 0 else 1) ""
    (symbol, { g1 with status := Status.ready, turn := some t, startingPlayer := some t })
  else (symbol, g1)

/-- `this.players[pid]`. -/
def Game.playerById (g : Game) (pid : String) : Option PlayerSlot :=
  g.players.find? (fun p => p.pid == pid)

/-- `Game.currentPlayerSymbol` (lines 1038–1040): `this.players[this.turn]?.symbol`. -/
def currentPlayerSymbol (g : Game) : Option Mark :=
  match g.turn with
  | none => none
  | some t => (g.playerById t).map (·.symbol)

/-- The 8 winning triples of `checkWinner` (lines 1043–1047), in source order. -/
def LINES : List (Nat × Nat × Nat) :=
  [(0, 1, 2), (3, 4, 5), (6, 7, 8), (0, 3, 6), (1, 4, 7), (2, 5, 8), (0, 4, 8), (2, 4, 6)]

/-- The loop body of `checkWinner`: `board[a] && board[a]===board[b] && board[a]===board[c]`,
returning the shared mark when the line is mono-mark. -/
def lineMark (b : Board) (l : Nat × Nat × Nat) : Option Mark :=
  match boardGet b l.1 with
  | some m =>
    if boardGet b l.2.1 == some m && boardGet b l.2.2 == some m then some m else none
  | none => none

/-- `this.board.every(cell => cell !== null)`. -/
def boardFull (b : Board) : Bool :=
  decide (∀ i : Fin 9, b i ≠ none)

/-- `Game.checkWinner`'s verdict. -/
inductive WinCheck
  | winner (m : Mark) (line : List Nat)
  | draw
  | ongoing
deriving DecidableEq, Repr

/-- `Game.checkWinner` (lines 1042–1061): first mono-mark line in source order,
else draw when the board is full, else ongoing. -/
def checkWinner (b : Board) : WinCheck :=
  match LINES.findSome? (fun l => (lineMark b l).map (fun m => (m, l))) with
  | some (m, l) => WinCheck.winner m [l.1, l.2.1, l.2.2]
  | none => if boardFull b then WinCheck.draw else WinCheck.ongoing

/-- The rejection reasons of `makeMove` (lines 1064–1067). -/
inductive MoveReason
  | not_playing
  | not_your_turn
  | bad_pos
  | occupied
deriving DecidableEq, Repr

/-- `makeMove`'s return value.  `wonBy` carries the winner id exactly as the
code computes it (`undefined` when no player holds the winning mark). -/
inductive MoveResult
  | rejected (reason : MoveReason)
  | moved
  | wonBy (winnerId : Option String) (winLine : List Nat)
  | drawn (nextStarter : Option String)
deriving DecidableEq, Repr

/-- `Game.clearTurnTimer` (lines 1133–1138). -/
def clearTurnTimer (g : Game) : Game :=
  { g with turnTimerArmed := false }

/-- `Game.startTurnTimer` (lines 1105–1131), state part: re-arm the timer and
expose the deadline (`now` is `Date.now()`).  The `nextTurn` emissions and the
scheduling of an asynchronous bot move mutate no match state. -/
def startTurnTimer (now : Nat) (g : Game) : Game :=
  let timeout := if g.isFirstTurn then 8000 else 5000
  { g with turnTimerArmed := true, turnDeadlineAt := some (now + timeout) }

/-- `Game.makeMove` (lines 1063–1103).  `pos` is the raw integer cell index from
the wire. -/
def makeMove (now : Nat) (g : Game) (socketId : String) (pos : Int) : MoveResult × Game :=
  if g.status ≠ Status.playing then (MoveResult.rejected MoveReason.not_playing, g)
  else if g.turn ≠ some socketId then (MoveResult.rejected MoveReason.not_your_turn, g)
  else if pos < 0 ∨ 8 < pos then (MoveResult.rejected MoveReason.bad_pos, g)
  else if boardGet g.board pos.toNat ≠ none then (MoveResult.rejected MoveReason.occupied, g)
  else
    let g1 : Game := { g with board := boardSet g.board pos.toNat (currentPlayerSymbol g),
                              isFirstTurn := false, moveCount := g.moveCount + 1 }
    match checkWinner g1.board with
    | WinCheck.winner m line =>
      let winnerId := (g1.players.find? (fun p => p.symbol == m)).map (·.pid)
      let g2 := clearTurnTimer { g1 with status := Status.finished }
      (MoveResult.wonBy winnerId line,
        { g2 with winner := match winnerId with
                            | some w => GameWinner.player w
                            | none => GameWinner.undecided,
                  winLine := line })
    | WinCheck.draw =>
      let g2 := clearTurnTimer { g1 with status := Status.finished }
      let ids := g2.players.map (·.pid)
      let other := ids.find? (fun id => some id != g2.startingPlayer)
      (MoveResult.drawn other, { g2 with winner := GameWinner.drawn, startingPlayer := other })
    | WinCheck.ongoing =>
      let ids := g1.players.map (·.pid)
      let next := ids.find? (fun id => some id != g1.turn)
      (MoveResult.moved, startTurnTimer now { g1 with turn := next })

/-- `handleDraw` (lines 3023–3099), state part: switch the recorded starter once
more, reset the board for in-place continuation, and re-arm the timer for the
resulting starter.  (`updatePlayerHistory` is a logging no-op, line 462; the
emissions and delayed bot move mutate no match state.)  `otherPlayer || game.startingPlayer`
falls back when the found id is absent or the empty string (JS falsiness). -/
def handleDraw (now : Nat) (g : Game) : Game :=
  let ids := g.players.map (·.pid)
  let other := ids.find? (fun id => some id != g.startingPlayer)
  let sp := match other with
            | some o => if o = "" then g.startingPlayer else some o
            | none => g.startingPlayer
  let g1 : Game :=
    { g with startingPlayer := sp, board := emptyBoard, status := Status.playing,
             winner := GameWinner.undecided, winLine := [], moveCount := 0,
             isFirstTurn := true, turn := sp }
  startTurnTimer now (clearTurnTimer g1)

/-- The server-level state one match sees: the `games[gameId]` entry and the
keys of the `activeBots` map (gameId → live `BotPlayer` session, line 448). -/
structure ServerState where
  gameId : String
  game : Game
  activeBots : List String
deriving DecidableEq

/-- The first `handleGameEnd` declaration (lines 2538–2591), state part: mark
the game finished, clear the timer, and delete the match's `activeBots`
session if one exists. -/
def handleGameEnd_v1 (s : ServerState) (winnerId : Option String) : ServerState :=
  let _ := winnerId
  { s with game := clearTurnTimer { s.game with status := Status.finished },
           activeBots := s.activeBots.filter (fun k => k ≠ s.gameId) }

/-- The second `handleGameEnd` declaration (lines 2864–3021), state part: mark
the game finished and clear the timer; it never touches `activeBots` (payouts,
logging and emissions mutate no match state). -/
def handleGameEnd_v2 (s : ServerState) (winnerId : Option String) : ServerState :=
  let _ := winnerId
  { s with game := clearTurnTimer { s.game with status := Status.finished } }

/-- The effective `handleGameEnd`: both declarations sit at the top level of
the same file, and in JavaScript the later function declaration shadows the
earlier one under hoisting, so every call site runs the lines-2864 version. -/
def handleGameEnd (s : ServerState) (winnerId : Option String) : ServerState :=
  handleGameEnd_v2 s winnerId

/-- `availableMoves` as computed in `handleTimeout` (lines 1146–1148):
the ascending list of empty cell indices. -/
def availableMoves (b : Board) : List Nat :=
  (List.range 9).filter (fun i => boardGet b i == none)

/-- What one `handleTimeout` firing did. -/
structure TimeoutEffect where
  forfeitWinner : Option String
  appliedMove : Option Nat
deriving DecidableEq, Repr

/-- `Game.handleTimeout` (lines 1140–1191) together with its `handleDraw` /
`handleGameEnd` follow-up calls.  `rand` models
`Math.floor(Math.random() * availableMoves.length)` as an arbitrary index into
the non-empty list of free cells; the trailing `makeBotMove` re-dispatch only
schedules an asynchronous move and mutates no state here. -/
def handleTimeout (now rand : Nat) (s : ServerState) : ServerState × TimeoutEffect :=
  let g := s.game
  if g.status ≠ Status.playing then (s, ⟨none, none⟩)
  else
    let current := match g.turn with
                   | some t => g.playerById t
                   | none => none
    if (current.map (·.isBot)).getD false then
      let avail := availableMoves g.board
      if avail.isEmpty then (s, ⟨none, none⟩)
      else
        let move := avail.getD (rand % avail.length) 0
        let r := makeMove now g (g.turn.getD "") (Int.ofNat move)
        let s1 : ServerState := { s with game := r.2 }
        match r.1 with
        | MoveResult.wonBy (some w) _ => (handleGameEnd s1 (some w), ⟨none, some move⟩)
        | MoveResult.drawn _ => ({ s1 with game := handleDraw now s1.game }, ⟨none, some move⟩)
        | _ => (s1, ⟨none, some move⟩)
    else
      let ids := g.players.map (·.pid)
      let other := ids.find? (fun id => some id != g.turn)
      (handleGameEnd s other, ⟨other, none⟩)

/-- What the `socket.on('makeMove')` handler emitted. -/
inductive HandlerEvent
  | errorTo (target : String) (message : String)
  | movedBroadcast
deriving DecidableEq, Repr

/-- The error-message mapping of the handler's rejection path (lines 2770–2784). -/
def errorMessageFor (g : Game) (r : MoveReason) : String :=
  match r with
  | MoveReason.not_playing =>
    if g.status = Status.finished then "Game already finished" else "Game not started"
  | MoveReason.not_your_turn => "Not your turn"
  | MoveReason.bad_pos => "Invalid position"
  | MoveReason.occupied => "Position already taken"

/-- The `socket.on('makeMove')` handler (lines 2748–2824), restricted to the
acting socket's own slot (the lightning-address fallback resolves to the same
slot).  A not-ok result emits exactly one `error` event back to the acting
socket; an accepted move broadcasts to the room. -/
def makeMoveHandler (now : Nat) (g : Game) (actorSocket : String) (pos : Int) :
    Game × List HandlerEvent :=
  let pidInGame : Option String :=
    ((g.players.find? (fun p => p.pid == actorSocket)).map (·.pid))
  match pidInGame with
  | none => (g, [HandlerEvent.errorTo actorSocket "Not your turn"])
  | some pid =>
    if g.turn ≠ some pid then (g, [HandlerEvent.errorTo actorSocket "Not your turn"])
    else
      let r := makeMove now g pid pos
      match r.1 with
      | MoveResult.rejected reason =>
        (r.2, [HandlerEvent.errorTo actorSocket (errorMessageFor g reason)])
      | _ => (r.2, [HandlerEvent.movedBroadcast])

/-- A line all three of whose cells hold the same mark. -/
def monoLine (b : Board) (l : Nat × Nat × Nat) : Prop :=
  ∃ m : Mark, boardGet b l.1 = some m ∧ boardGet b l.2.1 = some m ∧ boardGet b l.2.2 = some m

instance (b : Board) (l : Nat × Nat × Nat) : Decidable (monoLine b l) := by
  unfold monoLine; infer_instance

/-- Build a board from a row-major 9-cell list. -/
def boardOfList (l : List Cell) : Board := fun i => l.getD i none

/-- A human participant holding the first slot. -/
def slotHuman : PlayerSlot := ⟨"p1", "alice@wallet", false, Mark.X, false⟩

/-- An automated participant holding the second slot. -/
def slotAuto : PlayerSlot := ⟨"bot_1", "ghost7@wallet", true, Mark.O, false⟩

/-- A round one X-placement (cell 8) away from a draw. -/
def preDrawBoard : Board :=
  boardOfList [some Mark.X, some Mark.O, some Mark.X, some Mark.X, some Mark.O,
    some Mark.O, some Mark.O, some Mark.X, none]

/-- A mid-match state: human X to move, human started the round. -/
def fixtureGame : Game :=
  { betAmount := 50, players := [slotHuman, slotAuto], board := preDrawBoard,
    turn := some "p1", status := Status.playing, winner := GameWinner.undecided,
    winLine := [], turnTimerArmed := true, isFirstTurn := false, moveCount := 8,
    startingPlayer := some "p1", turnDeadlineAt := some 5000 }

/-- The server slice owning `fixtureGame`, with a live bot session. -/
def fixtureServer : ServerState := ⟨"g1", fixtureGame, ["g1"]⟩

/-- As `fixtureGame` but with the automated slot to move. -/
def botTurnGame : Game := { fixtureGame with turn := some "bot_1" }

/-- The server slice owning `botTurnGame`. -/
def botTurnServer : ServerState := ⟨"g1", botTurnGame, ["g1"]⟩

/-- A full board with no winning line. -/
def fullDrawBoard : Board :=
  boardOfList [some Mark.X, some Mark.O, some Mark.X, some Mark.X, some Mark.O,
    some Mark.O, some Mark.O, some Mark.X, some Mark.X]

/-- X holds the whole top row. -/
def xRowBoard : Board :=
  boardOfList [some Mark.X, some Mark.X, some Mark.X, some Mark.O, some Mark.O,
    none, none, none, none]

/-- The three cell values of a line, in line order (the `values` array). -/
def lineTriple (b : Board) (l : Nat × Nat × Nat) : List Cell :=
  [boardGet b l.1, boardGet b l.2.1, boardGet b l.2.2]

/-- The three indices of a line as a list. -/
def lineNats (l : Nat × Nat × Nat) : List Nat := [l.1, l.2.1, l.2.2]

/-- One pass condition of `evaluateBoard` (lines 161 / 171):
`values.filter(v => v === who).length === 2 && values.includes(null)`. -/
def twoAndFree (b : Board) (who : Mark) (l : Nat × Nat × Nat) : Bool :=
  ((lineTriple b l).countP (fun v => v == some who) == 2) && (lineTriple b l).contains none

/-- `line[values.indexOf(null)]`. -/
def freeSpot (b : Board) (l : Nat × Nat × Nat) : Nat :=
  (lineNats l).getD ((lineTriple b l).findIdx (fun v => v == none)) 0

/-- `BotPlayer.evaluateBoard` (lines 148–177): first the `'O'` winning pass over
all 8 lines, then the `'X'` blocking pass — the controller hard-codes `'O'` as
its own mark and `'X'` as the mark to beat. -/
def evaluateBoard (b : Board) : Option Nat :=
  match LINES.find? (twoAndFree b Mark.O) with
  | some l => some (freeSpot b l)
  | none =>
    match LINES.find? (twoAndFree b Mark.X) with
    | some l => some (freeSpot b l)
    | none => none

/-- `available[Math.floor(Math.random() * available.length)]` with the random
draw modelled as an arbitrary index `k` reduced mod the length (`undefined`,
i.e. `none`, on an empty list). -/
def pickFrom (l : List Nat) (k : Nat) : Option Nat :=
  if l.isEmpty then none else some (l.getD (k % l.length) 0)

/-- JavaScript `m || fallback` on cell indices: index `0` is falsy, so a
strategic answer of cell 0 falls through to the fallback. -/
def jsOrIdx (m fallback : Option Nat) : Option Nat :=
  match m with
  | some k => if k = 0 then fallback else some k
  | none => fallback

/-- The random draws one `getStrategicMove` call can consume. -/
structure StratRand where
  cornerPick : Nat
  edgePick : Nat
deriving DecidableEq, Repr

/-- `BotPlayer.getStrategicMove` (lines 179–200): win-or-block, else centre,
else a random free corner, else a random free edge. -/
def getStrategicMove (r : StratRand) (b : Board) : Option Nat :=
  match evaluateBoard b with
  | some c => some c
  | none =>
    if boardGet b 4 == none then some 4
    else
      let corners := [0, 2, 6, 8].filter (fun i => boardGet b i == none)
      if corners.length > 0 then pickFrom corners r.cornerPick
      else
        let edges := [1, 3, 5, 7].filter (fun i => boardGet b i == none)
        if edges.length > 0 then pickFrom edges r.edgePick
        else none

/-- The random draws one `makeNoobMove` call can consume. -/
structure NoobRand where
  missWin : Bool
  missBlock : Bool
  otherPick : Nat
  randPick : Nat
  fallbackPick : Nat
  strat : StratRand
deriving DecidableEq, Repr

/-- `BotPlayer.makeNoobMove` (lines 202–226): sometimes dodge the win-or-block
cell, sometimes play fully at random, else play the strategic move. -/
def makeNoobMove (r : NoobRand) (b : Board) : Option Nat :=
  let available := availableMoves b
  let tail : Option Nat :=
    if r.missBlock then pickFrom available r.randPick
    else jsOrIdx (getStrategicMove r.strat b) (pickFrom available r.fallbackPick)
  if r.missWin then
    match evaluateBoard b with
    | some winMove =>
      let otherMoves := available.filter (fun m => m ≠ winMove)
      if otherMoves.length > 0 then pickFrom otherMoves r.otherPick else tail
    | none => tail
  else tail

/-- The random draws one `makeSillyMistake` call can consume. -/
structure SillyRand where
  pick : Nat
  fallbackPick : Nat
deriving DecidableEq, Repr

/-- `BotPlayer.makeSillyMistake` (lines 229–257): with an X threat on the board,
deliberately play anything except the blocking cell. -/
def makeSillyMistake (r : SillyRand) (b : Board) : Option Nat :=
  let available := availableMoves b
  match LINES.find? (twoAndFree b Mark.X) with
  | some l =>
    let blockMove := freeSpot b l
    let nonBlock := available.filter (fun m => m ≠ blockMove)
    if nonBlock.length > 0 then pickFrom nonBlock r.pick else pickFrom available r.fallbackPick
  | none => pickFrom available r.fallbackPick

/-- The mutable per-match session of `BotPlayer`: the scripted verdict, the
drawn-round counter, and the pre-chosen draw tolerance. -/
structure BotSession where
  shouldWin : Bool
  drawCount : Nat
  maxDrawsBeforeEnd : Nat
deriving DecidableEq, Repr

/-- `BotPlayer.checkPotentialDraw` (lines 317–325): count a "drawish" round
(≥ 5 cells filled) and bump `drawCount`. -/
def checkPotentialDraw (b : Board) (s : BotSession) : Bool × BotSession :=
  let filled := (List.range 9).countP (fun i => !(boardGet b i == none))
  if 5 ≤ filled then (true, { s with drawCount := s.drawCount + 1 }) else (false, s)

/-- The random draws one `getNextMove` call can consume. -/
structure MoveRand where
  branch : Bool
  pick : Nat
  strat : StratRand
  noob : NoobRand
  silly : SillyRand
deriving DecidableEq, Repr

/-- `BotPlayer.getNextMove` (lines 259–315).  `r.branch` models the
`Math.random() < 0.9` (must-win) / `< 0.4` (must-lose) branch coin. -/
def getNextMove (r : MoveRand) (s : BotSession) (b : Board) : Option Nat × BotSession :=
  let available := availableMoves b
  if available.isEmpty then (none, s)
  else
    let res := checkPotentialDraw b s
    let s1 := res.2
    if res.1 && decide (s1.maxDrawsBeforeEnd ≤ s1.drawCount) then
      if s1.shouldWin then (jsOrIdx (getStrategicMove r.strat b) available.head?, s1)
      else (makeSillyMistake r.silly b, s1)
    else if s1.shouldWin then
      if r.branch then (jsOrIdx (getStrategicMove r.strat b) (pickFrom available r.pick), s1)
      else (pickFrom available r.pick, s1)
    else if r.branch then
      (jsOrIdx (getStrategicMove r.strat b) (pickFrom available r.pick), s1)
    else (makeNoobMove r.noob b, s1)

/-- A duel between a human playing X (arbitrary legal cells) and the controller
playing O through `getNextMove`; an illegal or post-terminal move stops the
run.  The human mark and bot mark are exactly the marks the match assigns. -/
def duel : List (Fin 9 ⊕ MoveRand) → Board → BotSession → Board × BotSession
  | [], b, s => (b, s)
  | Sum.inl h :: rest, b, s =>
    if checkWinner b = WinCheck.ongoing ∧ b h = none then
      duel rest (boardSet b h (some Mark.X)) s
    else (b, s)
  | Sum.inr r :: rest, b, s =>
    if checkWinner b = WinCheck.ongoing then
      match getNextMove r s b with
      | (some m, s1) =>
        if boardGet b m = none then duel rest (boardSet b m (some Mark.O)) s1 else (b, s1)
      | (none, s1) => (b, s1)
    else (b, s)

/-- A must-win session that has seen no drawish rounds yet. -/
def mustWinSession : BotSession := ⟨true, 0, 3⟩

/-- An oracle that makes `getNextMove` take its non-strategic random branch and
pick the first free cell. -/
def passiveRand : MoveRand := ⟨false, 0, ⟨0, 0⟩, ⟨false, false, 0, 0, 0, ⟨0, 0⟩⟩, ⟨0, 0⟩⟩

/-- Human X takes 0, 3, 6 while the session's random branch wastes both replies. -/
def losingTrace : List (Fin 9 ⊕ MoveRand) :=
  [Sum.inl 0, Sum.inr passiveRand, Sum.inl 3, Sum.inr passiveRand, Sum.inl 6]

/-- The bot-spawn timer callback (server lines 2111–2131), state part: the bot
is attached only when the found game still has exactly one occupied slot. -/
def botSpawnAttach (g : Game) (botId botAddr : String) (coin : Bool) : Option Game :=
  if g.players.length = 1 then some (addPlayer g botId botAddr true coin).2 else none

/-- O already holds two cells of the top row; X threatens nothing decisive. -/
def winThreatBoard : Board :=
  boardOfList [some Mark.O, some Mark.O, none, some Mark.X, some Mark.X, none,
    none, none, none]

/-- X threatens the top row; O holds no two-in-a-line. -/
def blockThreatBoard : Board :=
  boardOfList [some Mark.X, some Mark.X, none, none, some Mark.O, none,
    none, none, none]

/-- The number of board cells holding mark `m`. -/
def cnt (b : Board) (m : Mark) : Nat := ∑ i : Fin 9, if b i = some m then 1 else 0

/-- The id of the other of two slots. -/
def otherPid (a b : PlayerSlot) (st : String) : String :=
  if st = a.pid then b.pid else a.pid

/-- The round starter's mark under the first-joiner-X assignment. -/
def startSym (a b : PlayerSlot) (st : String) : Mark :=
  if st = a.pid then Mark.X else Mark.O

/-- The non-starter's mark. -/
def startSymOther (a b : PlayerSlot) (st : String) : Mark :=
  if st = a.pid then Mark.O else Mark.X

/-- A freshly started two-player round: both slots filled in join order, empty
board, `playing`, current mover equal to the recorded starter `st`. -/
def TwoPlayerStart (g : Game) (st : String) : Prop :=
  ∃ a b : PlayerSlot, g.players = [a, b] ∧ a.pid ≠ b.pid ∧ a.pid ≠ "" ∧ b.pid ≠ "" ∧
    a.symbol = Mark.X ∧ b.symbol = Mark.O ∧ (st = a.pid ∨ st = b.pid) ∧
    g.status = Status.playing ∧ g.board = emptyBoard ∧ g.moveCount = 0 ∧
    g.startingPlayer = some st ∧ g.turn = some st

/-- Match states reachable from a fresh two-player round by accepted moves and
draw-triggered restarts.  The second component is a history variable: the id of
the player who actually moved first in the current round (the code's
`startingPlayer` field is transiently double-switched along the draw path, so
the field itself cannot serve as this notion mid-transition). -/
inductive Reach : Game → String → Prop
  | start (g : Game) (st : String) : TwoPlayerStart g st → Reach g st
  | move (g : Game) (st : String) (now : Nat) (actor : String) (pos : Int) :
      Reach g st → (∀ r, (makeMove now g actor pos).1 ≠ MoveResult.rejected r) →
      Reach (makeMove now g actor pos).2 st
  | drawRestart (g : Game) (st st2 : String) (now : Nat) :
      Reach g st → g.winner = GameWinner.drawn →
      (handleDraw now g).turn = some st2 →
      Reach (handleDraw now g) st2

/-- The inductive invariant carried through `Reach`. -/
def Inv (g : Game) (st : String) : Prop :=
  ∃ a b : PlayerSlot, g.players = [a, b] ∧ a.pid ≠ b.pid ∧ a.pid ≠ "" ∧ b.pid ≠ "" ∧
    a.symbol = Mark.X ∧ b.symbol = Mark.O ∧ (st = a.pid ∨ st = b.pid) ∧
    g.moveCount = cnt g.board Mark.X + cnt g.board Mark.O ∧
    cnt g.board (startSym a b st) = (g.moveCount + 1) / 2 ∧
    cnt g.board (startSymOther a b st) = g.moveCount / 2 ∧
    (g.status = Status.playing →
      g.turn = some (if Even g.moveCount then st else otherPid a b st))

/-- A fresh round used to instantiate `Reach`. -/
def startFixGame : Game :=
  { betAmount := 50, players := [slotHuman, slotAuto], board := emptyBoard,
    turn := some "p1", status := Status.playing, winner := GameWinner.undecided,
    winLine := [], turnTimerArmed := true, isFirstTurn := true, moveCount := 0,
    startingPlayer := some "p1", turnDeadlineAt := some 8000 }

section ScripterLemmas

lemma determineOutcome_50 (rnd : Bool) (addr : String) (s : ScripterState)
    (h : addr ≠ "") :
    (determineOutcome rnd addr 50 s).1 =
        (PATTERN_50_SATS.getD (s.idx50 % PATTERN_50_SATS.length) Token.L == Token.W)
      ∧ (determineOutcome rnd addr 50 s).2.idx50 = s.idx50 + 1
      ∧ (determineOutcome rnd addr 50 s).2.idx300 = s.idx300
      ∧ (determineOutcome rnd addr 50 s).2.betInfo = s.betInfo := by
  simp [determineOutcome, h, ScripterState.idx50, ScripterState.idx300, ScripterState.betInfo]

lemma determineOutcome_300 (rnd : Bool) (addr : String) (amt : Nat) (s : ScripterState)
    (h : addr ≠ "") (h3 : 300 ≤ amt) (hnr : ¬ revengeFires amt s) :
    (determineOutcome rnd addr amt s).1 =
        (PATTERN_300_PLUS.getD (s.idx300 % PATTERN_300_PLUS.length) Token.L == Token.W)
      ∧ (determineOutcome rnd addr amt s).2.idx300 = s.idx300 + 1
      ∧ (determineOutcome rnd addr amt s).2.idx50 = s.idx50
      ∧ (determineOutcome rnd addr amt s).2.betInfo =
          { lastBet := some amt,
            lastResult :=
              some (PATTERN_300_PLUS.getD (s.idx300 % PATTERN_300_PLUS.length) Token.L),
            gameCount := s.betInfo.gameCount + 1,
            consecutiveSameBet := s.betInfo.consecutiveSameBet } := by
  have h50 : amt ≠ 50 := by omega
  have hnr' : ¬((s.bet.getD BetInfo.fresh).lastBet = some amt ∧
      (s.bet.getD BetInfo.fresh).lastResult = some Token.L ∧
      (s.bet.getD BetInfo.fresh).gameCount = 1) := by
    simpa [revengeFires, ScripterState.betInfo] using hnr
  simp [determineOutcome, h, h50, h3, ScripterState.idx50, ScripterState.idx300,
    ScripterState.betInfo, hnr']

lemma determineOutcome_revenge (rnd : Bool) (addr : String) (amt : Nat) (s : ScripterState)
    (h : addr ≠ "") (h3 : 300 ≤ amt) (hr : revengeFires amt s) :
    (determineOutcome rnd addr amt s).1 = false
      ∧ (determineOutcome rnd addr amt s).2.idx300 = s.idx300
      ∧ (determineOutcome rnd addr amt s).2.idx50 = s.idx50
      ∧ (determineOutcome rnd addr amt s).2.betInfo =
          { s.betInfo with lastResult := some Token.W, gameCount := 2 } := by
  have h50 : amt ≠ 50 := by omega
  obtain ⟨h1, h2, hc⟩ := hr
  simp only [ScripterState.betInfo] at h1 h2 hc
  simp [determineOutcome, h, h50, h3, ScripterState.idx50, ScripterState.idx300,
    ScripterState.betInfo, h1, h2, hc]

lemma determineOutcome_gameCount (rnd : Bool) (addr : String) (amt : Nat)
    (s : ScripterState) :
    (determineOutcome rnd addr amt s).2.betInfo.gameCount =
      (if addr ≠ "" ∧ amt ≠ 50 ∧ 300 ≤ amt then s.betInfo.gameCount + 1
       else s.betInfo.gameCount) := by
  by_cases h : addr = "" <;>
    by_cases h50 : amt = 50 <;>
      by_cases h3 : 300 ≤ amt <;>
        simp [determineOutcome, h, h50, h3, ScripterState.betInfo] <;>
          split <;> simp [ScripterState.betInfo] <;> omega

lemma determineOutcome_gameCount_le (rnd : Bool) (addr : String) (amt : Nat)
    (s : ScripterState) :
    s.betInfo.gameCount ≤ (determineOutcome rnd addr amt s).2.betInfo.gameCount := by
  rw [determineOutcome_gameCount]; split <;> omega

lemma runScripter_gameCount_le (rnd : Bool) (addr : String) (l : List Nat)
    (s : ScripterState) :
    s.betInfo.gameCount ≤ (runScripter rnd addr l s).betInfo.gameCount := by
  induction l generalizing s with
  | nil => simp [runScripter]
  | cons a rest ih =>
    calc s.betInfo.gameCount ≤ (determineOutcome rnd addr a s).2.betInfo.gameCount :=
          determineOutcome_gameCount_le rnd addr a s
      _ ≤ _ := ih _

lemma runScripter_append (rnd : Bool) (addr : String) (l1 l2 : List Nat)
    (s : ScripterState) :
    runScripter rnd addr (l1 ++ l2) s = runScripter rnd addr l2 (runScripter rnd addr l1 s) := by
  induction l1 generalizing s with
  | nil => simp [runScripter]
  | cons a rest ih => simp [runScripter, ih]

lemma scripterTrace_replicate50 (rnd : Bool) (addr : String) (h : addr ≠ "") :
    ∀ (n k : Nat) (s : ScripterState), k < n →
      (scripterTrace rnd addr (List.replicate n 50) s).get? k =
        some (PATTERN_50_SATS.getD ((s.idx50 + k) % PATTERN_50_SATS.length) Token.L
          == Token.W) := by
  intro n
  induction n with
  | zero => omega
  | succ m ih =>
    intro k s hk
    rw [List.replicate_succ]
    match k with
    | 0 =>
      simp only [scripterTrace, List.get?]
      rw [(determineOutcome_50 rnd addr s h).1]
      simp
    | k + 1 =>
      simp only [scripterTrace, List.get?]
      rw [ih k _ (by omega), (determineOutcome_50 rnd addr s h).2.1]
      have harith : s.idx50 + 1 + k = s.idx50 + (k + 1) := by omega
      rw [harith]

end ScripterLemmas

lemma revengeAt_not_later (rnd : Bool) (addr : String) (amts : List Nat) (j k : Nat)
    (hjk : j < k) (hj : revengeAt rnd addr amts ScripterState.fresh j) :
    ¬ revengeAt rnd addr amts ScripterState.fresh k := by
  rintro ⟨b, hgb, hne, h3b, hfk⟩
  obtain ⟨a, hga, _, h3a, hfj⟩ := hj
  have hcount1 : (runScripter rnd addr (amts.take j) ScripterState.fresh).betInfo.gameCount = 1 :=
    hfj.2.2
  have hga' : amts[j]? = some a := by rw [← List.get?_eq_getElem?]; exact hga
  have htake : amts.take (j + 1) = amts.take j ++ [a] := by
    rw [List.take_succ, hga']; rfl
  have hcount2 :
      (runScripter rnd addr (amts.take (j + 1)) ScripterState.fresh).betInfo.gameCount = 2 := by
    rw [htake, runScripter_append]
    have : runScripter rnd addr [a] (runScripter rnd addr (amts.take j) ScripterState.fresh) =
        (determineOutcome rnd addr a
          (runScripter rnd addr (amts.take j) ScripterState.fresh)).2 := rfl
    rw [this, determineOutcome_gameCount]
    have : addr ≠ "" ∧ a ≠ 50 ∧ 300 ≤ a := ⟨hne, by omega, h3a⟩
    rw [if_pos this, hcount1]
  have hsplit : amts.take k = amts.take (j + 1) ++ (amts.drop (j + 1)).take (k - (j + 1)) := by
    have hk : k = (j + 1) + (k - (j + 1)) := by omega
    conv_lhs => rw [hk]
    rw [List.take_add]
  have hge : 2 ≤ (runScripter rnd addr (amts.take k) ScripterState.fresh).betInfo.gameCount := by
    rw [hsplit, runScripter_append, ← hcount2]
    exact runScripter_gameCount_le rnd addr _ _
  have := hfk.2.2
  omega

/-- **C1**: for a tracked identity (non-empty lightning address), every
scripted-outcome decision that is not a rematch override returns exactly the
configured script's token at the identity's cursor (mod script length) for the
wager-tier bucket — 50 sats uses `PATTERN_50_SATS`, 300-and-above uses
`PATTERN_300_PLUS` — and advances that cursor by one; a rematch-override
decision advances neither cursor, so the cycle continues unbroken; and over
`n` consecutive 50-sats decisions from a fresh identity, decision `N` (1-based)
yields token `(N-1) mod 9`, so decision 10 repeats decision 1. -/
theorem scripted_outcomes_follow_cycled_script :
    (∀ (rnd : Bool) (addr : String) (s : ScripterState), addr ≠ "" →
        (determineOutcome rnd addr 50 s).1 =
            (PATTERN_50_SATS.getD (s.idx50 % PATTERN_50_SATS.length) Token.L == Token.W)
          ∧ (determineOutcome rnd addr 50 s).2.idx50 = s.idx50 + 1)
    ∧ (∀ (rnd : Bool) (addr : String) (amt : Nat) (s : ScripterState), addr ≠ "" →
        300 ≤ amt → ¬ revengeFires amt s →
        (determineOutcome rnd addr amt s).1 =
            (PATTERN_300_PLUS.getD (s.idx300 % PATTERN_300_PLUS.length) Token.L == Token.W)
          ∧ (determineOutcome rnd addr amt s).2.idx300 = s.idx300 + 1)
    ∧ (∀ (rnd : Bool) (addr : String) (amt : Nat) (s : ScripterState), addr ≠ "" →
        300 ≤ amt → revengeFires amt s →
        (determineOutcome rnd addr amt s).2.idx300 = s.idx300
          ∧ (determineOutcome rnd addr amt s).2.idx50 = s.idx50)
    ∧ (∀ (rnd : Bool) (addr : String) (n k : Nat), addr ≠ "" → k < n →
        (scripterTrace rnd addr (List.replicate n 50) ScripterState.fresh).get? k =
          some (PATTERN_50_SATS.getD (k % PATTERN_50_SATS.length) Token.L == Token.W)) := by
  refine ⟨?_, ?_, ?_, ?_⟩
  · intro rnd addr s h
    exact ⟨(determineOutcome_50 rnd addr s h).1, (determineOutcome_50 rnd addr s h).2.1⟩
  · intro rnd addr amt s h h3 hnr
    exact ⟨(determineOutcome_300 rnd addr amt s h h3 hnr).1,
      (determineOutcome_300 rnd addr amt s h h3 hnr).2.1⟩
  · intro rnd addr amt s h h3 hr
    exact ⟨(determineOutcome_revenge rnd addr amt s h h3 hr).2.1,
      (determineOutcome_revenge rnd addr amt s h h3 hr).2.2.1⟩
  · intro rnd addr n k h hk
    simpa [ScripterState.idx50, ScripterState.fresh, PlayerHist.fresh] using
      scripterTrace_replicate50 rnd addr h n k ScripterState.fresh hk

theorem scripted_outcomes_follow_cycled_script_witness :
    ((determineOutcome true "p@s" 50 ScripterState.fresh).1 =
        (PATTERN_50_SATS.getD (ScripterState.fresh.idx50 % PATTERN_50_SATS.length) Token.L
          == Token.W)
      ∧ (determineOutcome true "p@s" 50 ScripterState.fresh).2.idx50 =
          ScripterState.fresh.idx50 + 1)
    ∧ ((scripterTrace true "p@s" (List.replicate 10 50) ScripterState.fresh).get? 9 =
        some (PATTERN_50_SATS.getD (9 % PATTERN_50_SATS.length) Token.L == Token.W)) :=
  ⟨scripted_outcomes_follow_cycled_script.1 true "p@s" ScripterState.fresh (by decide),
   scripted_outcomes_follow_cycled_script.2.2.2 true "p@s" 10 9 (by decide) (by decide)⟩

/-- **C2 counterexample**: a fresh tracked identity betting 500 sats twice.
The first high-tier decision returns `mustWin = false` and records
`lastResult = 'L'` — this recorded `'L'` is the only "previous result" the
claim's premise can refer to — the revenge guard then fires, and the second
decision at the same tier returns `mustWin = false`, not `true` as claimed.
Moreover an intervening decision at a different high tier (500 then 1000)
permanently destroys the eligibility the claim says switching cannot consume. -/
theorem revenge_override_claim_counterexample :
    (determineOutcome true "p@s" 500 ScripterState.fresh).1 = false
      ∧ (determineOutcome true "p@s" 500 ScripterState.fresh).2.betInfo.lastBet = some 500
      ∧ (determineOutcome true "p@s" 500 ScripterState.fresh).2.betInfo.lastResult = some Token.L
      ∧ revengeFires 500 (determineOutcome true "p@s" 500 ScripterState.fresh).2
      ∧ (determineOutcome true "p@s" 500
          (determineOutcome true "p@s" 500 ScripterState.fresh).2).1 = false
      ∧ ¬ revengeFires 500 (runScripter true "p@s" [500, 1000] ScripterState.fresh) := by
  decide

/-- **C2 as amended**: when the revenge guard (`lastBet` equal to the current
high-tier amount, recorded `lastResult = 'L'`, and `gameCount = 1`, i.e. the
identity's second high-tier decision overall) fires, the decision returns
`mustWin = false` — a forced player win, the opposite direction of the claim —
and advances no script cursor; along any decision run from a fresh identity the
override fires at most once (so never again after later losses); and an
intervening decision at a different high tier permanently destroys eligibility
(switching tiers does consume the override). -/
theorem revenge_override_code_behaviour :
    (∀ (rnd : Bool) (addr : String) (amt : Nat) (s : ScripterState), addr ≠ "" →
        300 ≤ amt → revengeFires amt s →
        (determineOutcome rnd addr amt s).1 = false
          ∧ (determineOutcome rnd addr amt s).2.idx300 = s.idx300
          ∧ (determineOutcome rnd addr amt s).2.betInfo.gameCount = 2)
    ∧ (∀ (rnd : Bool) (addr : String) (amts : List Nat) (j k : Nat),
        revengeAt rnd addr amts ScripterState.fresh j →
        revengeAt rnd addr amts ScripterState.fresh k → j = k)
    ∧ (∀ (rnd : Bool) (addr : String) (t1 t2 : Nat), addr ≠ "" → 300 ≤ t1 → 300 ≤ t2 →
        t1 ≠ t2 → ¬ revengeFires t1 (runScripter rnd addr [t1, t2] ScripterState.fresh)) := by
  refine ⟨?_, ?_, ?_⟩
  · intro rnd addr amt s h h3 hr
    refine ⟨(determineOutcome_revenge rnd addr amt s h h3 hr).1,
      (determineOutcome_revenge rnd addr amt s h h3 hr).2.1, ?_⟩
    rw [(determineOutcome_revenge rnd addr amt s h h3 hr).2.2.2]
  · intro rnd addr amts j k hj hk
    rcases Nat.lt_trichotomy j k with hlt | heq | hgt
    · exact absurd hk (revengeAt_not_later rnd addr amts j k hlt hj)
    · exact heq
    · exact absurd hj (revengeAt_not_later rnd addr amts k j hgt hk)
  · intro rnd addr t1 t2 h h3 h3' hne
    have hnr1 : ¬ revengeFires t1 ScripterState.fresh := by
      simp [revengeFires, ScripterState.betInfo, ScripterState.fresh, BetInfo.fresh]
    have e1 := (determineOutcome_300 rnd addr t1 ScripterState.fresh h h3 hnr1).2.2.2
    have hnr2 : ¬ revengeFires t2 (determineOutcome rnd addr t1 ScripterState.fresh).2 := by
      rintro ⟨hb, -, -⟩
      rw [e1] at hb
      simp only [Option.some.injEq] at hb
      exact hne hb
    have e2 := (determineOutcome_300 rnd addr t2
      (determineOutcome rnd addr t1 ScripterState.fresh).2 h h3' hnr2).2.2.2
    rintro ⟨hb, -, -⟩
    have hrun : runScripter rnd addr [t1, t2] ScripterState.fresh =
        (determineOutcome rnd addr t2 (determineOutcome rnd addr t1 ScripterState.fresh).2).2 :=
      rfl
    rw [hrun, e2] at hb
    simp only [Option.some.injEq] at hb
    exact hne hb.symm

theorem revenge_override_code_behaviour_witness :
    ((determineOutcome true "p@s" 500
          (determineOutcome true "p@s" 500 ScripterState.fresh).2).1 = false
      ∧ (determineOutcome true "p@s" 500
            (determineOutcome true "p@s" 500 ScripterState.fresh).2).2.idx300 =
          (determineOutcome true "p@s" 500 ScripterState.fresh).2.idx300
      ∧ (determineOutcome true "p@s" 500
            (determineOutcome true "p@s" 500 ScripterState.fresh).2).2.betInfo.gameCount = 2)
    ∧ ¬ revengeFires 500 (runScripter true "p@s" [500, 1000] ScripterState.fresh) :=
  ⟨revenge_override_code_behaviour.1 true "p@s" 500
      (determineOutcome true "p@s" 500 ScripterState.fresh).2
      (by decide) (by decide) (by decide),
   revenge_override_code_behaviour.2.2 true "p@s" 500 1000
      (by decide) (by decide) (by decide) (by decide)⟩

lemma cellTriple_mark_iff : ∀ (c1 c2 c3 : Cell) (m : Mark),
    ((match c1 with
      | some m0 => if c2 == some m0 && c3 == some m0 then some m0 else none
      | none => none) = some m) ↔ (c1 = some m ∧ c2 = some m ∧ c3 = some m) := by
  decide

lemma lineMark_eq_some_iff (b : Board) (l : Nat × Nat × Nat) (m : Mark) :
    lineMark b l = some m ↔
      boardGet b l.1 = some m ∧ boardGet b l.2.1 = some m ∧ boardGet b l.2.2 = some m :=
  cellTriple_mark_iff (boardGet b l.1) (boardGet b l.2.1) (boardGet b l.2.2) m

lemma lineMark_isSome_iff_monoLine (b : Board) (l : Nat × Nat × Nat) :
    (∃ m, lineMark b l = some m) ↔ monoLine b l := by
  unfold monoLine
  constructor
  · rintro ⟨m, hm⟩; exact ⟨m, (lineMark_eq_some_iff b l m).1 hm⟩
  · rintro ⟨m, hm⟩; exact ⟨m, (lineMark_eq_some_iff b l m).2 hm⟩

lemma findSome?_eq_some_ex {α β : Type} (f : α → Option β) :
    ∀ (l : List α) (y : β), l.findSome? f = some y → ∃ a ∈ l, f a = some y := by
  intro l
  induction l with
  | nil => intro y h; simp [List.findSome?] at h
  | cons x xs ih =>
    intro y h
    cases hfx : f x with
    | some z =>
      refine ⟨x, by simp, ?_⟩
      rw [hfx]
      rw [List.findSome?_cons, hfx] at h
      exact h
    | none =>
      rw [List.findSome?_cons, hfx] at h
      obtain ⟨a, ha, hfa⟩ := ih y h
      exact ⟨a, by simp [ha], hfa⟩

lemma findSome?_eq_none_all {α β : Type} (f : α → Option β) :
    ∀ (l : List α), l.findSome? f = none → ∀ a ∈ l, f a = none := by
  intro l
  induction l with
  | nil => intro _ a ha; simp at ha
  | cons x xs ih =>
    intro h a ha
    rw [List.findSome?_cons] at h
    cases hfx : f x with
    | some z => rw [hfx] at h; exact absurd h (by simp)
    | none =>
      rw [hfx] at h
      rcases List.mem_cons.1 ha with rfl | ha'
      · exact hfx
      · exact ih h a ha'

lemma boardFull_iff (b : Board) : boardFull b = true ↔ ∀ i : Fin 9, b i ≠ none := by
  unfold boardFull
  exact decide_eq_true_iff

/-- **C6**: for every board, `checkWinner` never reports both a winner and a
draw; it reports a winner exactly when one of the 8 standard lines is
mono-mark; and it reports a draw exactly when no line is mono-mark and no cell
is empty. -/
theorem board_evaluator_characterisation :
    ∀ b : Board,
      (checkWinner b = WinCheck.draw → ¬ ∃ m line, checkWinner b = WinCheck.winner m line)
      ∧ ((∃ m line, checkWinner b = WinCheck.winner m line) ↔ ∃ l ∈ LINES, monoLine b l)
      ∧ (checkWinner b = WinCheck.draw ↔
          ((∀ l ∈ LINES, ¬ monoLine b l) ∧ ∀ i : Fin 9, b i ≠ none)) := by
  intro b
  cases hfind : LINES.findSome? (fun l => (lineMark b l).map (fun m => (m, l))) with
  | some ml =>
    obtain ⟨m, l⟩ := ml
    have hcw : checkWinner b = WinCheck.winner m [l.1, l.2.1, l.2.2] := by
      unfold checkWinner; rw [hfind]
    obtain ⟨a, haL, hfa⟩ := findSome?_eq_some_ex _ LINES (m, l) hfind
    have hmark : lineMark b a = some m ∧ a = l := by
      cases hla : lineMark b a with
      | none => rw [hla] at hfa; exact nomatch hfa
      | some m0 =>
        rw [hla] at hfa
        have hp : (m0, a) = (m, l) := Option.some.inj hfa
        have hm0 : m0 = m := congrArg Prod.fst hp
        have hal : a = l := congrArg Prod.snd hp
        exact ⟨congrArg some hm0, hal⟩
    have hmono : monoLine b a := (lineMark_isSome_iff_monoLine b a).1 ⟨m, hmark.1⟩
    rw [hcw]
    refine ⟨?_, ?_, ?_⟩
    · intro h; exact nomatch h
    · constructor
      · rintro -; exact ⟨a, haL, hmono⟩
      · rintro -; exact ⟨m, [l.1, l.2.1, l.2.2], rfl⟩
    · constructor
      · intro h; exact nomatch h
      · rintro ⟨hno, -⟩; exact absurd hmono (hno a haL)
  | none =>
    have hcw : checkWinner b = (if boardFull b then WinCheck.draw else WinCheck.ongoing) := by
      unfold checkWinner; rw [hfind]
    rw [hcw]
    have hnone := findSome?_eq_none_all _ LINES hfind
    have hnomono : ∀ l ∈ LINES, ¬ monoLine b l := by
      intro l hl hm
      obtain ⟨m, hmm⟩ := (lineMark_isSome_iff_monoLine b l).2 hm
      have := hnone l hl
      rw [hmm] at this
      simp at this
    by_cases hfull : boardFull b
    · rw [if_pos hfull]
      refine ⟨?_, ?_, ?_⟩
      · rintro - ⟨m, line, h⟩; exact nomatch h
      · constructor
        · rintro ⟨m, line, h⟩; exact nomatch h
        · rintro ⟨l, hl, hm⟩; exact absurd hm (hnomono l hl)
      · constructor
        · intro _; exact ⟨hnomono, (boardFull_iff b).1 hfull⟩
        · intro _; rfl
    · rw [if_neg hfull]
      refine ⟨?_, ?_, ?_⟩
      · rintro h; exact nomatch h
      · constructor
        · rintro ⟨m, line, h⟩; exact nomatch h
        · rintro ⟨l, hl, hm⟩; exact absurd hm (hnomono l hl)
      · constructor
        · intro h; exact nomatch h
        · rintro ⟨-, hfull'⟩
          exact absurd ((boardFull_iff b).2 hfull') hfull

section MoveRejection

variable (now : Nat) (g : Game) (a : String) (pos : Int)

lemma makeMove_not_playing (h1 : g.status ≠ Status.playing) :
    makeMove now g a pos = (MoveResult.rejected MoveReason.not_playing, g) := by
  unfold makeMove; rw [if_pos h1]

lemma makeMove_not_your_turn (h1 : g.status = Status.playing) (h2 : g.turn ≠ some a) :
    makeMove now g a pos = (MoveResult.rejected MoveReason.not_your_turn, g) := by
  unfold makeMove
  rw [if_neg (by simp [h1]), if_pos h2]

lemma makeMove_bad_pos (h1 : g.status = Status.playing) (h2 : g.turn = some a)
    (h3 : pos < 0 ∨ 8 < pos) :
    makeMove now g a pos = (MoveResult.rejected MoveReason.bad_pos, g) := by
  unfold makeMove
  rw [if_neg (by simp [h1]), if_neg (by simp [h2]), if_pos h3]

lemma makeMove_occupied (h1 : g.status = Status.playing) (h2 : g.turn = some a)
    (h3 : ¬(pos < 0 ∨ 8 < pos)) (h4 : boardGet g.board pos.toNat ≠ none) :
    makeMove now g a pos = (MoveResult.rejected MoveReason.occupied, g) := by
  unfold makeMove
  rw [if_neg (by simp [h1]), if_neg (by simp [h2]), if_neg h3, if_pos h4]

lemma makeMove_accepted_not_rejected (h1 : g.status = Status.playing)
    (h2 : g.turn = some a) (h3 : ¬(pos < 0 ∨ 8 < pos))
    (h4 : boardGet g.board pos.toNat = none) :
    ∀ r, (makeMove now g a pos).1 ≠ MoveResult.rejected r := by
  intro r
  unfold makeMove
  rw [if_neg (by simp [h1]), if_neg (by simp [h2]), if_neg h3, if_neg (by simp [h4])]
  dsimp only
  split <;> simp

end MoveRejection


lemma makeMove_state_on_reject (now : Nat) (g : Game) (a : String) (pos : Int)
    (r : MoveReason) :
    (makeMove now g a pos).1 = MoveResult.rejected r → (makeMove now g a pos).2 = g := by
  intro h
  by_cases h1 : g.status = Status.playing
  · by_cases h2 : g.turn = some a
    · by_cases h3 : pos < 0 ∨ 8 < pos
      · rw [makeMove_bad_pos now g a pos h1 h2 h3]
      · by_cases h4 : boardGet g.board pos.toNat = none
        · exact absurd h (makeMove_accepted_not_rejected now g a pos h1 h2 h3 h4 r)
        · rw [makeMove_occupied now g a pos h1 h2 h3 h4]
    · rw [makeMove_not_your_turn now g a pos h1 h2]
  · rw [makeMove_not_playing now g a pos h1]

lemma handler_event_shape (now : Nat) (g : Game) (a : String) (pos : Int) :
    (∃ msg, (makeMoveHandler now g a pos).2 = [HandlerEvent.errorTo a msg]
        ∧ (makeMoveHandler now g a pos).1 = g)
      ∨ (makeMoveHandler now g a pos).2 = [HandlerEvent.movedBroadcast] := by
  unfold makeMoveHandler
  cases hpid : (g.players.find? (fun p => p.pid == a)).map (·.pid) with
  | none => exact Or.inl ⟨"Not your turn", rfl, rfl⟩
  | some pid =>
    dsimp only
    by_cases ht : g.turn = some pid
    · rw [if_neg (by simp [ht])]
      cases hr : (makeMove now g pid pos).1 with
      | rejected reason =>
        exact Or.inl ⟨errorMessageFor g reason, rfl,
          makeMove_state_on_reject now g pid pos reason hr⟩
      | moved => exact Or.inr rfl
      | wonBy w line => exact Or.inr rfl
      | drawn ns => exact Or.inr rfl
    · rw [if_pos ht]
      exact Or.inl ⟨"Not your turn", rfl, rfl⟩

/-- **C4**: `makeMove` rejects — with the corresponding reason, with the guards
checked in source order, and leaving the game state unchanged — exactly when
the match is not `playing`, the acting slot does not hold the turn, the cell
index is outside 0..8, or the cell is occupied; and the socket handler reports
a rejection with a single `error` event to the acting socket only (an accepted
move instead broadcasts to the room). -/
theorem move_rejection_characterisation :
    ∀ (now : Nat) (g : Game) (a : String) (pos : Int),
      ((∃ r, (makeMove now g a pos).1 = MoveResult.rejected r) ↔
        (g.status ≠ Status.playing ∨ g.turn ≠ some a ∨ pos < 0 ∨ 8 < pos ∨
          boardGet g.board pos.toNat ≠ none))
      ∧ (∀ r, (makeMove now g a pos).1 = MoveResult.rejected r → (makeMove now g a pos).2 = g)
      ∧ ((makeMove now g a pos).1 = MoveResult.rejected MoveReason.not_playing ↔
          g.status ≠ Status.playing)
      ∧ ((makeMove now g a pos).1 = MoveResult.rejected MoveReason.not_your_turn ↔
          (g.status = Status.playing ∧ g.turn ≠ some a))
      ∧ ((makeMove now g a pos).1 = MoveResult.rejected MoveReason.bad_pos ↔
          (g.status = Status.playing ∧ g.turn = some a ∧ (pos < 0 ∨ 8 < pos)))
      ∧ ((makeMove now g a pos).1 = MoveResult.rejected MoveReason.occupied ↔
          (g.status = Status.playing ∧ g.turn = some a ∧ ¬(pos < 0 ∨ 8 < pos) ∧
            boardGet g.board pos.toNat ≠ none))
      ∧ ((∃ msg, (makeMoveHandler now g a pos).2 = [HandlerEvent.errorTo a msg]
            ∧ (makeMoveHandler now g a pos).1 = g)
          ∨ (makeMoveHandler now g a pos).2 = [HandlerEvent.movedBroadcast]) := by
  intro now g a pos
  by_cases h1 : g.status = Status.playing
  case neg =>
    rw [makeMove_not_playing now g a pos h1]
    exact ⟨by simp [h1], by simp, by simp [h1], by simp [h1], by simp [h1], by simp [h1],
      handler_event_shape now g a pos⟩
  case pos =>
    by_cases h2 : g.turn = some a
    case neg =>
      rw [makeMove_not_your_turn now g a pos h1 h2]
      exact ⟨by simp [h2], by simp, by simp [h1], by simp [h1, h2], by simp [h2], by simp [h2],
        handler_event_shape now g a pos⟩
    case pos =>
      by_cases h3 : pos < 0 ∨ 8 < pos
      case pos =>
        rw [makeMove_bad_pos now g a pos h1 h2 h3]
        refine ⟨by simp; tauto, by simp, by simp [h1], by simp [h2],
          by simp [h1, h2]; tauto,
          ⟨fun hr => by simp at hr, fun hcon => absurd h3 hcon.2.2.1⟩, ?_⟩
        exact handler_event_shape now g a pos
      case neg =>
        by_cases h4 : boardGet g.board pos.toNat = none
        case neg =>
          rw [makeMove_occupied now g a pos h1 h2 h3 h4]
          refine ⟨by simp [h4], by simp, by simp [h1], by simp [h2], by simp [h3],
            by simp [h1, h2, h3, h4], ?_⟩
          exact handler_event_shape now g a pos
        case pos =>
          have hacc := makeMove_accepted_not_rejected now g a pos h1 h2 h3 h4
          refine ⟨?_, ?_, ?_, ?_, ?_, ?_, ?_⟩
          · constructor
            · rintro ⟨r, hr⟩; exact absurd hr (hacc r)
            · intro hdisj
              rcases hdisj with h | h | h | h | h
              · exact absurd h1 h
              · exact absurd h2 h
              · exact absurd (Or.inl h) h3
              · exact absurd (Or.inr h) h3
              · exact absurd h4 h
          · intro r hr; exact absurd hr (hacc r)
          · exact ⟨fun hr => absurd hr (hacc _), fun h => absurd h1 h⟩
          · exact ⟨fun hr => absurd hr (hacc _), fun h => absurd h2 h.2⟩
          · exact ⟨fun hr => absurd hr (hacc _), fun h => absurd h.2.2 h3⟩
          · exact ⟨fun hr => absurd hr (hacc _), fun h => absurd h4 h.2.2.2⟩
          · exact handler_event_shape now g a pos

/-! ## C3: the draw-triggered restart -/

lemma makeMove_drawn_state (now : Nat) (g : Game) (a : String) (pos : Int) (ns : Option String)
    (h : (makeMove now g a pos).1 = MoveResult.drawn ns) :
    (makeMove now g a pos).2.players = g.players
      ∧ (makeMove now g a pos).2.startingPlayer =
          (g.players.map (·.pid)).find? (fun id => some id != g.startingPlayer)
      ∧ (makeMove now g a pos).2.status = Status.finished
      ∧ (makeMove now g a pos).2.winner = GameWinner.drawn := by
  by_cases h1 : g.status = Status.playing
  case neg => rw [makeMove_not_playing now g a pos h1] at h; exact nomatch h
  case pos =>
  by_cases h2 : g.turn = some a
  case neg => rw [makeMove_not_your_turn now g a pos h1 h2] at h; exact nomatch h
  case pos =>
  by_cases h3 : pos < 0 ∨ 8 < pos
  case pos => rw [makeMove_bad_pos now g a pos h1 h2 h3] at h; exact nomatch h
  case neg =>
  by_cases h4 : boardGet g.board pos.toNat = none
  case neg => rw [makeMove_occupied now g a pos h1 h2 h3 h4] at h; exact nomatch h
  case pos =>
  unfold makeMove at h ⊢
  rw [if_neg (by simp [h1]), if_neg (by simp [h2]), if_neg h3, if_neg (by simp [h4])] at h ⊢
  dsimp only at h ⊢
  cases hcw : checkWinner (boardSet g.board pos.toNat (currentPlayerSymbol g)) with
  | winner m line => rw [hcw] at h; simp at h
  | ongoing => rw [hcw] at h; simp at h
  | draw =>
    rw [hcw] at h
    exact ⟨rfl, rfl, rfl, rfl⟩

/-- **C3 (code bug)**: after an accepted drawing move, `makeMove` switches the
recorded starter to the other slot, but `handleDraw` — called right after by
every caller — switches it again and sets the turn from it, so the *same* slot
that started the drawn round starts the next round.  The rest of the claimed
reset does happen: board cleared, move counter and first-turn flag reset, state
back to `playing`, a fresh deadline armed for the (unchanged) starting mover. -/
theorem draw_restart_starter_behaviour :
    ∀ (now now2 : Nat) (g : Game) (a b : PlayerSlot) (actor : String) (pos : Int)
      (ns : Option String),
      g.players = [a, b] → a.pid ≠ b.pid → a.pid ≠ "" → b.pid ≠ "" →
      g.startingPlayer = some a.pid →
      (makeMove now g actor pos).1 = MoveResult.drawn ns →
      ((makeMove now g actor pos).2.startingPlayer = some b.pid
        ∧ (handleDraw now2 (makeMove now g actor pos).2).startingPlayer = some a.pid
        ∧ (handleDraw now2 (makeMove now g actor pos).2).turn = some a.pid
        ∧ (handleDraw now2 (makeMove now g actor pos).2).status = Status.playing
        ∧ (handleDraw now2 (makeMove now g actor pos).2).board = emptyBoard
        ∧ (handleDraw now2 (makeMove now g actor pos).2).moveCount = 0
        ∧ (handleDraw now2 (makeMove now g actor pos).2).isFirstTurn = true
        ∧ (handleDraw now2 (makeMove now g actor pos).2).turnTimerArmed = true) := by
  intro now now2 g a b actor pos ns hp hne ha hb hsp hdr
  obtain ⟨hpl, hspl, -, -⟩ := makeMove_drawn_state now g actor pos ns hdr
  have hfind : (g.players.map (·.pid)).find? (fun id => some id != g.startingPlayer) =
      some b.pid := by
    rw [hp, hsp]
    have hs : (b.pid == a.pid) = false := beq_eq_false_iff_ne.mpr (Ne.symm hne)
    simp [List.find?, bne, hs]
  have hsp2 : (makeMove now g actor pos).2.startingPlayer = some b.pid := by
    rw [hspl, hfind]
  refine ⟨hsp2, ?_⟩
  have hids : (makeMove now g actor pos).2.players.map (·.pid) = [a.pid, b.pid] := by
    rw [hpl, hp]; rfl
  have hfind2 : ((makeMove now g actor pos).2.players.map (·.pid)).find?
      (fun id => some id != (makeMove now g actor pos).2.startingPlayer) = some a.pid := by
    rw [hids, hsp2]
    have hs2 : (a.pid == b.pid) = false := beq_eq_false_iff_ne.mpr hne
    simp [List.find?, bne, hs2]
  unfold handleDraw
  dsimp only
  rw [hfind2]
  simp [startTurnTimer, clearTurnTimer, ha]

/-! ## C5: per-turn deadline timeout -/

lemma getD_mem_of_lt {l : List Nat} {i : Nat} (h : i < l.length) (d : Nat) :
    l.getD i d ∈ l := by
  rw [List.getD_eq_getElem _ _ h]
  exact List.getElem_mem h

lemma mem_availableMoves {b : Board} {m : Nat} (h : m ∈ availableMoves b) :
    boardGet b m = none := by
  unfold availableMoves at h
  have := (List.mem_filter.1 h).2
  simpa using this

/-- **C5**: when the per-turn deadline fires on a `playing` match — if the
timed-out mover is the automated opponent, one legal placement (the
oracle-chosen entry of the free-cell list) is applied on its behalf and no
forfeit occurs; if the timed-out mover is a human, the other slot is declared
winner by forfeit, no move is applied, and the board (and move counter) are
untouched while the match ends. -/
theorem timeout_forfeit_or_bot_move :
    ∀ (now rand : Nat) (s : ServerState) (a b : PlayerSlot),
      s.game.players = [a, b] → a.pid ≠ b.pid → s.game.status = Status.playing →
      ((s.game.turn = some a.pid → a.isBot = false →
          ((handleTimeout now rand s).2.forfeitWinner = some b.pid
            ∧ (handleTimeout now rand s).2.appliedMove = none
            ∧ (handleTimeout now rand s).1.game.board = s.game.board
            ∧ (handleTimeout now rand s).1.game.status = Status.finished
            ∧ (handleTimeout now rand s).1.game.moveCount = s.game.moveCount))
        ∧ (s.game.turn = some b.pid → b.isBot = false →
            ((handleTimeout now rand s).2.forfeitWinner = some a.pid
              ∧ (handleTimeout now rand s).2.appliedMove = none
              ∧ (handleTimeout now rand s).1.game.board = s.game.board
              ∧ (handleTimeout now rand s).1.game.status = Status.finished
              ∧ (handleTimeout now rand s).1.game.moveCount = s.game.moveCount))
        ∧ (s.game.turn = some a.pid → a.isBot = true → availableMoves s.game.board ≠ [] →
            ((handleTimeout now rand s).2.appliedMove =
                some ((availableMoves s.game.board).getD
                  (rand % (availableMoves s.game.board).length) 0)
              ∧ (availableMoves s.game.board).getD
                  (rand % (availableMoves s.game.board).length) 0 ∈ availableMoves s.game.board
              ∧ boardGet s.game.board ((availableMoves s.game.board).getD
                  (rand % (availableMoves s.game.board).length) 0) = none
              ∧ (handleTimeout now rand s).2.forfeitWinner = none))
        ∧ (s.game.turn = some b.pid → b.isBot = true → availableMoves s.game.board ≠ [] →
            ((handleTimeout now rand s).2.appliedMove =
                some ((availableMoves s.game.board).getD
                  (rand % (availableMoves s.game.board).length) 0)
              ∧ (availableMoves s.game.board).getD
                  (rand % (availableMoves s.game.board).length) 0 ∈ availableMoves s.game.board
              ∧ boardGet s.game.board ((availableMoves s.game.board).getD
                  (rand % (availableMoves s.game.board).length) 0) = none
              ∧ (handleTimeout now rand s).2.forfeitWinner = none))) := by
  intro now rand s a b hp hne hstatus
  have hs : (b.pid == a.pid) = false := beq_eq_false_iff_ne.mpr (Ne.symm hne)
  have hs2 : (a.pid == b.pid) = false := beq_eq_false_iff_ne.mpr hne
  have hfoundA : s.game.playerById a.pid = some a := by
    unfold Game.playerById; rw [hp]; simp [List.find?]
  have hfoundB : s.game.playerById b.pid = some b := by
    unfold Game.playerById; rw [hp]; simp [List.find?, hs2]
  refine ⟨?_, ?_, ?_, ?_⟩
  · intro ht habot
    have hother : (s.game.players.map (·.pid)).find? (fun id => some id != some a.pid) =
        some b.pid := by
      rw [hp]
      simp [List.find?, bne, hs]
    have hres : handleTimeout now rand s = (handleGameEnd s (some b.pid), ⟨some b.pid, none⟩) := by
      unfold handleTimeout
      rw [if_neg (by simp [hstatus])]
      dsimp only
      rw [ht]
      dsimp only
      rw [hfoundA]
      rw [if_neg (by simp [habot])]
      rw [hother]
    rw [hres]
    exact ⟨rfl, rfl, rfl, rfl, rfl⟩
  · intro ht hbbot
    have hother : (s.game.players.map (·.pid)).find? (fun id => some id != some b.pid) =
        some a.pid := by
      rw [hp]
      simp [List.find?, bne, hs2]
    have hres : handleTimeout now rand s = (handleGameEnd s (some a.pid), ⟨some a.pid, none⟩) := by
      unfold handleTimeout
      rw [if_neg (by simp [hstatus])]
      dsimp only
      rw [ht]
      dsimp only
      rw [hfoundB]
      rw [if_neg (by simp [hbbot])]
      rw [hother]
    rw [hres]
    exact ⟨rfl, rfl, rfl, rfl, rfl⟩
  · intro ht hbot hav
    have hlen : 0 < (availableMoves s.game.board).length := List.length_pos.mpr hav
    have hmem : (availableMoves s.game.board).getD
        (rand % (availableMoves s.game.board).length) 0 ∈ availableMoves s.game.board :=
      getD_mem_of_lt (Nat.mod_lt _ hlen) 0
    have heff : (handleTimeout now rand s).2 =
        ⟨none, some ((availableMoves s.game.board).getD
          (rand % (availableMoves s.game.board).length) 0)⟩ := by
      unfold handleTimeout
      rw [if_neg (by simp [hstatus])]
      simp only [ht]
      rw [hfoundA]
      rw [if_pos (by simp [hbot])]
      rw [if_neg (by simp [List.isEmpty_iff, hav])]
      split <;> rfl
    refine ⟨?_, hmem, mem_availableMoves hmem, ?_⟩
    · rw [heff]
    · rw [heff]
  · intro ht hbot hav
    have hlen : 0 < (availableMoves s.game.board).length := List.length_pos.mpr hav
    have hmem : (availableMoves s.game.board).getD
        (rand % (availableMoves s.game.board).length) 0 ∈ availableMoves s.game.board :=
      getD_mem_of_lt (Nat.mod_lt _ hlen) 0
    have heff : (handleTimeout now rand s).2 =
        ⟨none, some ((availableMoves s.game.board).getD
          (rand % (availableMoves s.game.board).length) 0)⟩ := by
      unfold handleTimeout
      rw [if_neg (by simp [hstatus])]
      simp only [ht]
      rw [hfoundB]
      rw [if_pos (by simp [hbot])]
      rw [if_neg (by simp [List.isEmpty_iff, hav])]
      split <;> rfl
    refine ⟨?_, hmem, mem_availableMoves hmem, ?_⟩
    · rw [heff]
    · rw [heff]

/-- **C9 (code bug)**: the effective `handleGameEnd` (the second declaration,
which shadows the first) marks the match `finished` but never removes the
match's session from `activeBots`; only the shadowed first declaration would
have removed it. -/
theorem bot_session_survives_match_finish :
    ∀ (s : ServerState) (w : Option String), s.gameId ∈ s.activeBots →
      ((handleGameEnd s w).game.status = Status.finished
        ∧ s.gameId ∈ (handleGameEnd s w).activeBots
        ∧ s.gameId ∉ (handleGameEnd_v1 s w).activeBots) := by
  intro s w hmem
  refine ⟨rfl, hmem, ?_⟩
  simp [handleGameEnd_v1, List.mem_filter]

/-! ### Witnesses for the state-machine claims -/

theorem board_evaluator_characterisation_witness :
    (¬ ∃ m line, checkWinner fullDrawBoard = WinCheck.winner m line)
      ∧ ((∃ m line, checkWinner xRowBoard = WinCheck.winner m line) ↔
          ∃ l ∈ LINES, monoLine xRowBoard l) :=
  ⟨(board_evaluator_characterisation fullDrawBoard).1 (by decide),
   (board_evaluator_characterisation xRowBoard).2.1⟩

theorem move_rejection_characterisation_witness :
    ((makeMove 99 fixtureGame "bot_1" 8).1 = MoveResult.rejected MoveReason.not_your_turn ↔
        (fixtureGame.status = Status.playing ∧ fixtureGame.turn ≠ some "bot_1"))
      ∧ (∀ r, (makeMove 99 fixtureGame "p1" 9).1 = MoveResult.rejected r →
          (makeMove 99 fixtureGame "p1" 9).2 = fixtureGame) :=
  ⟨(move_rejection_characterisation 99 fixtureGame "bot_1" 8).2.2.2.1,
   (move_rejection_characterisation 99 fixtureGame "p1" 9).2.1⟩

theorem draw_restart_starter_behaviour_witness :
    (makeMove 99 fixtureGame "p1" 8).2.startingPlayer = some "bot_1"
      ∧ (handleDraw 100 (makeMove 99 fixtureGame "p1" 8).2).startingPlayer = some "p1"
      ∧ (handleDraw 100 (makeMove 99 fixtureGame "p1" 8).2).turn = some "p1"
      ∧ (handleDraw 100 (makeMove 99 fixtureGame "p1" 8).2).status = Status.playing
      ∧ (handleDraw 100 (makeMove 99 fixtureGame "p1" 8).2).board = emptyBoard
      ∧ (handleDraw 100 (makeMove 99 fixtureGame "p1" 8).2).moveCount = 0
      ∧ (handleDraw 100 (makeMove 99 fixtureGame "p1" 8).2).isFirstTurn = true
      ∧ (handleDraw 100 (makeMove 99 fixtureGame "p1" 8).2).turnTimerArmed = true :=
  draw_restart_starter_behaviour 99 100 fixtureGame slotHuman slotAuto "p1" 8
    (some "bot_1") rfl (by decide) (by decide) (by decide) rfl (by decide)

theorem timeout_forfeit_or_bot_move_witness :
    ((handleTimeout 99 0 fixtureServer).2.forfeitWinner = some "bot_1"
      ∧ (handleTimeout 99 0 fixtureServer).2.appliedMove = none
      ∧ (handleTimeout 99 0 fixtureServer).1.game.board = fixtureServer.game.board
      ∧ (handleTimeout 99 0 fixtureServer).1.game.status = Status.finished
      ∧ (handleTimeout 99 0 fixtureServer).1.game.moveCount = fixtureServer.game.moveCount)
    ∧ ((handleTimeout 99 0 botTurnServer).2.appliedMove =
          some ((availableMoves botTurnServer.game.board).getD
            (0 % (availableMoves botTurnServer.game.board).length) 0)
        ∧ (availableMoves botTurnServer.game.board).getD
            (0 % (availableMoves botTurnServer.game.board).length) 0 ∈
              availableMoves botTurnServer.game.board
        ∧ boardGet botTurnServer.game.board
            ((availableMoves botTurnServer.game.board).getD
              (0 % (availableMoves botTurnServer.game.board).length) 0) = none
        ∧ (handleTimeout 99 0 botTurnServer).2.forfeitWinner = none) :=
  ⟨(timeout_forfeit_or_bot_move 99 0 fixtureServer slotHuman slotAuto rfl (by decide)
      rfl).1 rfl rfl,
   (timeout_forfeit_or_bot_move 99 0 botTurnServer slotHuman slotAuto rfl (by decide)
      rfl).2.2.2 rfl rfl (by decide)⟩

theorem bot_session_survives_match_finish_witness :
    (handleGameEnd fixtureServer (some "p1")).game.status = Status.finished
      ∧ "g1" ∈ (handleGameEnd fixtureServer (some "p1")).activeBots
      ∧ "g1" ∉ (handleGameEnd_v1 fixtureServer (some "p1")).activeBots :=
  bot_session_survives_match_finish fixtureServer (some "p1") (by decide)

/-! ## C8 / C10 lemmas about the controller -/

lemma triple_free_spot : ∀ c1 c2 c3 : Cell,
    (([c1, c2, c3].contains none) = true) →
      ((([c1, c2, c3].findIdx (fun v => v == none)) = 0 ∧ c1 = none)
        ∨ (([c1, c2, c3].findIdx (fun v => v == none)) = 1 ∧ c2 = none)
        ∨ (([c1, c2, c3].findIdx (fun v => v == none)) = 2 ∧ c3 = none)) := by
  decide

lemma freeSpot_spec (b : Board) (who : Mark) (l : Nat × Nat × Nat)
    (h : twoAndFree b who l = true) :
    boardGet b (freeSpot b l) = none ∧
      (freeSpot b l = l.1 ∨ freeSpot b l = l.2.1 ∨ freeSpot b l = l.2.2) := by
  have hcont : ((lineTriple b l).contains none) = true := by
    unfold twoAndFree at h
    rw [Bool.and_eq_true] at h
    exact h.2
  unfold lineTriple at hcont
  have htf := triple_free_spot (boardGet b l.1) (boardGet b l.2.1) (boardGet b l.2.2) hcont
  unfold freeSpot lineTriple lineNats
  rcases htf with ⟨hi, hc⟩ | ⟨hi, hc⟩ | ⟨hi, hc⟩
  · rw [hi]; exact ⟨hc, Or.inl rfl⟩
  · rw [hi]; exact ⟨hc, Or.inr (Or.inl rfl)⟩
  · rw [hi]; exact ⟨hc, Or.inr (Or.inr rfl)⟩

lemma evaluateBoard_wins (b : Board) (h : ∃ l ∈ LINES, twoAndFree b Mark.O l = true) :
    ∃ l ∈ LINES, twoAndFree b Mark.O l = true ∧ evaluateBoard b = some (freeSpot b l) := by
  cases hf : LINES.find? (twoAndFree b Mark.O) with
  | none =>
    obtain ⟨l, hl, hp⟩ := h
    exact absurd hp (List.find?_eq_none.1 hf l hl)
  | some l =>
    refine ⟨l, List.mem_of_find?_eq_some hf, List.find?_some hf, ?_⟩
    unfold evaluateBoard
    rw [hf]

lemma evaluateBoard_blocks (b : Board)
    (hno : ∀ l ∈ LINES, ¬ twoAndFree b Mark.O l = true)
    (h : ∃ l ∈ LINES, twoAndFree b Mark.X l = true) :
    ∃ l ∈ LINES, twoAndFree b Mark.X l = true ∧ evaluateBoard b = some (freeSpot b l) := by
  have hf0 : LINES.find? (twoAndFree b Mark.O) = none := List.find?_eq_none.2 hno
  cases hf : LINES.find? (twoAndFree b Mark.X) with
  | none =>
    obtain ⟨l, hl, hp⟩ := h
    exact absurd hp (List.find?_eq_none.1 hf l hl)
  | some l =>
    refine ⟨l, List.mem_of_find?_eq_some hf, List.find?_some hf, ?_⟩
    unfold evaluateBoard
    rw [hf0, hf]

lemma evaluateBoard_legal (b : Board) (c : Nat) (h : evaluateBoard b = some c) :
    boardGet b c = none := by
  unfold evaluateBoard at h
  cases hf : LINES.find? (twoAndFree b Mark.O) with
  | some l =>
    rw [hf] at h
    have hlegal := (freeSpot_spec b Mark.O l (List.find?_some hf)).1
    rwa [Option.some.inj h] at hlegal
  | none =>
    rw [hf] at h
    cases hf2 : LINES.find? (twoAndFree b Mark.X) with
    | some l =>
      rw [hf2] at h
      have hlegal := (freeSpot_spec b Mark.X l (List.find?_some hf2)).1
      rwa [Option.some.inj h] at hlegal
    | none => rw [hf2] at h; exact nomatch h

lemma getStrategicMove_critical (r : StratRand) (b : Board) (c : Nat)
    (h : evaluateBoard b = some c) : getStrategicMove r b = some c := by
  unfold getStrategicMove
  rw [h]

lemma addPlayer_first (g : Game) (sid ln : String) (isBot coin : Bool)
    (hp : g.players = []) :
    (addPlayer g sid ln isBot coin).1 = Mark.X
      ∧ (addPlayer g sid ln isBot coin).2.players = [⟨sid, ln, isBot, Mark.X, false⟩] := by
  unfold addPlayer
  rw [hp]
  exact ⟨rfl, rfl⟩

lemma addPlayer_second (g : Game) (sid ln : String) (isBot coin : Bool) (p : PlayerSlot)
    (hp : g.players = [p]) :
    (addPlayer g sid ln isBot coin).1 = Mark.O
      ∧ (addPlayer g sid ln isBot coin).2.players = [p, ⟨sid, ln, isBot, Mark.O, false⟩] := by
  unfold addPlayer
  rw [hp]
  exact ⟨rfl, rfl⟩

/-- **C8 counterexample**: a must-win session (verdict fixed, drawn-round count
below its threshold) loses to a legal opponent: with the controller's
non-strategic random branch drawn on both of its turns, X completes the
0-3-6 column. -/
theorem must_win_session_can_lose :
    mustWinSession.shouldWin = true
      ∧ checkWinner (duel losingTrace emptyBoard mustWinSession).1 =
          WinCheck.winner Mark.X [0, 3, 6] := by
  decide

/-- **C8 as amended**: a must-win session can lose (see the counterexample), so
"never loses" does not hold of the code; what does hold of its move selection:
whenever the strategic selector is consulted it returns the free cell of a line
on which the session's own mark `O` already holds the other two cells if such a
line exists, otherwise the free cell of a line on which the opponent's mark `X`
holds two (an immediate block) if one exists; the returned cell always lies on
that line and is empty, and `getStrategicMove` forwards it unchanged. -/
theorem must_win_strategic_selection :
    (∀ b : Board, (∃ l ∈ LINES, twoAndFree b Mark.O l = true) →
        ∃ l ∈ LINES, twoAndFree b Mark.O l = true ∧ evaluateBoard b = some (freeSpot b l))
    ∧ (∀ b : Board, (∀ l ∈ LINES, ¬ twoAndFree b Mark.O l = true) →
        (∃ l ∈ LINES, twoAndFree b Mark.X l = true) →
        ∃ l ∈ LINES, twoAndFree b Mark.X l = true ∧ evaluateBoard b = some (freeSpot b l))
    ∧ (∀ (b : Board) (who : Mark) (l : Nat × Nat × Nat), twoAndFree b who l = true →
        boardGet b (freeSpot b l) = none ∧
          (freeSpot b l = l.1 ∨ freeSpot b l = l.2.1 ∨ freeSpot b l = l.2.2))
    ∧ (∀ (r : StratRand) (b : Board) (c : Nat), evaluateBoard b = some c →
        getStrategicMove r b = some c)
    ∧ (∀ (b : Board) (c : Nat), evaluateBoard b = some c → boardGet b c = none) :=
  ⟨evaluateBoard_wins, evaluateBoard_blocks, freeSpot_spec, getStrategicMove_critical,
   evaluateBoard_legal⟩

theorem must_win_strategic_selection_witness :
    (∃ l ∈ LINES, twoAndFree winThreatBoard Mark.O l = true ∧
        evaluateBoard winThreatBoard = some (freeSpot winThreatBoard l))
      ∧ (∃ l ∈ LINES, twoAndFree blockThreatBoard Mark.X l = true ∧
          evaluateBoard blockThreatBoard = some (freeSpot blockThreatBoard l)) :=
  ⟨must_win_strategic_selection.1 winThreatBoard (by decide),
   must_win_strategic_selection.2.1 blockThreatBoard (by decide) (by decide)⟩

/-- **C10**: the match assigns `X` to the first joiner and `O` to the second;
the spawn callback attaches an automated opponent only to a one-slot match, so
the human holds the first slot with `X` and the automated opponent the second
with `O`; and the controller's selection hard-codes this orientation, treating
`O` as its own winning mark and `X` as the mark to block. -/
theorem bot_slot_order_and_orientation :
    (∀ (g : Game) (sid ln : String) (isBot coin : Bool), g.players = [] →
        (addPlayer g sid ln isBot coin).1 = Mark.X
          ∧ (addPlayer g sid ln isBot coin).2.players = [⟨sid, ln, isBot, Mark.X, false⟩])
    ∧ (∀ (g : Game) (sid ln : String) (isBot coin : Bool) (p : PlayerSlot),
        g.players = [p] →
        (addPlayer g sid ln isBot coin).1 = Mark.O
          ∧ (addPlayer g sid ln isBot coin).2.players = [p, ⟨sid, ln, isBot, Mark.O, false⟩])
    ∧ (∀ (g : Game) (botId botAddr : String) (coin : Bool) (g2 : Game),
        botSpawnAttach g botId botAddr coin = some g2 →
        ∃ p, g.players = [p] ∧ g2.players = [p, ⟨botId, botAddr, true, Mark.O, false⟩])
    ∧ (∀ b : Board, (∃ l ∈ LINES, twoAndFree b Mark.O l = true) →
        ∃ l ∈ LINES, twoAndFree b Mark.O l = true ∧ evaluateBoard b = some (freeSpot b l))
    ∧ (∀ b : Board, (∀ l ∈ LINES, ¬ twoAndFree b Mark.O l = true) →
        (∃ l ∈ LINES, twoAndFree b Mark.X l = true) →
        ∃ l ∈ LINES, twoAndFree b Mark.X l = true ∧
          evaluateBoard b = some (freeSpot b l)) := by
  refine ⟨addPlayer_first, addPlayer_second, ?_, evaluateBoard_wins, evaluateBoard_blocks⟩
  intro g botId botAddr coin g2 h
  unfold botSpawnAttach at h
  by_cases hlen : g.players.length = 1
  · rw [if_pos hlen] at h
    obtain ⟨p, hp⟩ := List.length_eq_one.1 hlen
    refine ⟨p, hp, ?_⟩
    rw [← Option.some.inj h]
    exact (addPlayer_second g botId botAddr true coin p hp).2
  · rw [if_neg hlen] at h
    exact nomatch h

lemma cnt_emptyBoard (m : Mark) : cnt emptyBoard m = 0 := by
  simp [cnt, emptyBoard]

lemma indicator_update (b : Board) (j : Fin 9) (v : Cell) (m : Mark) :
    (fun i => if Function.update b j v i = some m then (1 : Nat) else 0) =
      Function.update (fun i => if b i = some m then (1 : Nat) else 0) j
        (if v = some m then 1 else 0) := by
  funext i
  by_cases h : i = j
  · subst h; simp
  · simp [Function.update_noteq h]

lemma cnt_update (b : Board) (j : Fin 9) (v : Cell) (m : Mark) (hj : b j = none) :
    cnt (Function.update b j v) m = cnt b m + (if v = some m then 1 else 0) := by
  unfold cnt
  rw [show (∑ i : Fin 9, if Function.update b j v i = some m then (1 : Nat) else 0) =
      ∑ i : Fin 9, Function.update (fun i => if b i = some m then (1 : Nat) else 0) j
        (if v = some m then 1 else 0) i from by rw [← indicator_update]]
  rw [Finset.sum_update_of_mem (Finset.mem_univ j)]
  have hsplit : (∑ i : Fin 9, if b i = some m then (1 : Nat) else 0) =
      (∑ i in Finset.univ \ {j}, if b i = some m then (1 : Nat) else 0)
        + (if b j = some m then 1 else 0) := by
    rw [Finset.sum_eq_sum_diff_singleton_add (Finset.mem_univ j)]
  rw [hsplit, hj]
  simp [Nat.add_comm]

lemma cnt_boardSet (b : Board) (p : Nat) (hp : p < 9) (c : Cell) (m : Mark)
    (hempty : b ⟨p, hp⟩ = none) :
    cnt (boardSet b p c) m = cnt b m + (if c = some m then 1 else 0) := by
  unfold boardSet
  rw [dif_pos hp]
  exact cnt_update b ⟨p, hp⟩ c m hempty

lemma currentSym_of_turn (g : Game) (a b : PlayerSlot) (hp : g.players = [a, b])
    (hne : a.pid ≠ b.pid) :
    (g.turn = some a.pid → currentPlayerSymbol g = some a.symbol)
    ∧ (g.turn = some b.pid → currentPlayerSymbol g = some b.symbol) := by
  have hs2 : (a.pid == b.pid) = false := beq_eq_false_iff_ne.mpr hne
  constructor
  · intro ht
    unfold currentPlayerSymbol
    rw [ht]
    unfold Game.playerById
    rw [hp]
    simp [List.find?]
  · intro ht
    unfold currentPlayerSymbol
    rw [ht]
    unfold Game.playerById
    rw [hp]
    simp [List.find?, hs2]

lemma find_next_of_two (a b : PlayerSlot) (hne : a.pid ≠ b.pid) :
    (([a, b].map (·.pid)).find? (fun id => some id != some a.pid) = some b.pid)
    ∧ (([a, b].map (·.pid)).find? (fun id => some id != some b.pid) = some a.pid) := by
  have hs : (b.pid == a.pid) = false := beq_eq_false_iff_ne.mpr (Ne.symm hne)
  have hs2 : (a.pid == b.pid) = false := beq_eq_false_iff_ne.mpr hne
  constructor
  · simp [List.find?, bne, hs]
  · simp [List.find?, bne, hs2]

lemma makeMove_accepted_guards (now : Nat) (g : Game) (actor : String) (pos : Int)
    (h : ∀ r, (makeMove now g actor pos).1 ≠ MoveResult.rejected r) :
    g.status = Status.playing ∧ g.turn = some actor ∧ ¬(pos < 0 ∨ 8 < pos) ∧
      boardGet g.board pos.toNat = none := by
  by_cases h1 : g.status = Status.playing
  · by_cases h2 : g.turn = some actor
    · by_cases h3 : pos < 0 ∨ 8 < pos
      · exact absurd (by rw [makeMove_bad_pos now g actor pos h1 h2 h3]) (h MoveReason.bad_pos)
      · by_cases h4 : boardGet g.board pos.toNat = none
        · exact ⟨h1, h2, h3, h4⟩
        · exact absurd (by rw [makeMove_occupied now g actor pos h1 h2 h3 h4])
            (h MoveReason.occupied)
    · exact absurd (by rw [makeMove_not_your_turn now g actor pos h1 h2])
        (h MoveReason.not_your_turn)
  · exact absurd (by rw [makeMove_not_playing now g actor pos h1]) (h MoveReason.not_playing)

lemma makeMove_accepted_fields (now : Nat) (g : Game) (actor : String) (pos : Int)
    (h1 : g.status = Status.playing) (h2 : g.turn = some actor)
    (h3 : ¬(pos < 0 ∨ 8 < pos)) (h4 : boardGet g.board pos.toNat = none) :
    (makeMove now g actor pos).2.players = g.players
    ∧ (makeMove now g actor pos).2.board = boardSet g.board pos.toNat (currentPlayerSymbol g)
    ∧ (makeMove now g actor pos).2.moveCount = g.moveCount + 1
    ∧ ((makeMove now g actor pos).2.status = Status.playing ∧
        (makeMove now g actor pos).2.turn =
          (g.players.map (·.pid)).find? (fun id => some id != g.turn)
        ∨ (makeMove now g actor pos).2.status = Status.finished) := by
  unfold makeMove
  rw [if_neg (by simp [h1]), if_neg (by simp [h2]), if_neg h3, if_neg (by simp [h4])]
  dsimp only
  cases hcw : checkWinner (boardSet g.board pos.toNat (currentPlayerSymbol g)) with
  | winner m line => exact ⟨rfl, rfl, rfl, Or.inr rfl⟩
  | draw => exact ⟨rfl, rfl, rfl, Or.inr rfl⟩
  | ongoing => exact ⟨rfl, rfl, rfl, Or.inl ⟨h1, rfl⟩⟩

lemma inv_start (g : Game) (st : String) (h : TwoPlayerStart g st) : Inv g st := by
  obtain ⟨a, b, hp, hne, hane, hbne, hsa, hsb, hst, hstatus, hboard, hmc, hsp, ht⟩ := h
  refine ⟨a, b, hp, hne, hane, hbne, hsa, hsb, hst, ?_, ?_, ?_, ?_⟩
  · rw [hboard, hmc, cnt_emptyBoard, cnt_emptyBoard]
  · rw [hboard, hmc, cnt_emptyBoard]
  · rw [hboard, hmc, cnt_emptyBoard]
  · intro _
    rw [hmc, if_pos even_zero]
    exact ht

lemma inv_move (now : Nat) (g : Game) (st actor : String) (pos : Int)
    (hinv : Inv g st) (hacc : ∀ r, (makeMove now g actor pos).1 ≠ MoveResult.rejected r) :
    Inv (makeMove now g actor pos).2 st := by
  obtain ⟨h1, h2, h3, h4⟩ := makeMove_accepted_guards now g actor pos hacc
  obtain ⟨a, b, hp, hne, hane, hbne, hsa, hsb, hst, hmc, hcS, hcO, hturn⟩ := hinv
  obtain ⟨hpl, hboard, hmc', hrest⟩ := makeMove_accepted_fields now g actor pos h1 h2 h3 h4
  have hp9 : pos.toNat < 9 := by omega
  have hbp : g.board ⟨pos.toNat, hp9⟩ = none := by
    have h4' := h4
    unfold boardGet at h4'
    rw [dif_pos hp9] at h4'
    exact h4'
  have hturn' := hturn h1
  have hST : startSym a b st ≠ startSymOther a b st := by
    unfold startSym startSymOther
    split <;> decide
  have hcur : currentPlayerSymbol g =
      some (if Even g.moveCount then startSym a b st else startSymOther a b st) := by
    rcases hst with hsta | hstb
    · by_cases he : Even g.moveCount
      · rw [(currentSym_of_turn g a b hp hne).1 (by rw [hturn', if_pos he, hsta]), hsa,
          if_pos he]
        unfold startSym
        rw [if_pos hsta]
      · rw [(currentSym_of_turn g a b hp hne).2
          (by rw [hturn', if_neg he]; unfold otherPid; rw [if_pos hsta]), hsb, if_neg he]
        unfold startSymOther
        rw [if_pos hsta]
    · have hsta' : st ≠ a.pid := by rw [hstb]; exact Ne.symm hne
      by_cases he : Even g.moveCount
      · rw [(currentSym_of_turn g a b hp hne).2 (by rw [hturn', if_pos he, hstb]), hsb,
          if_pos he]
        unfold startSym
        rw [if_neg hsta']
      · rw [(currentSym_of_turn g a b hp hne).1
          (by rw [hturn', if_neg he]; unfold otherPid; rw [if_neg hsta']), hsa, if_neg he]
        unfold startSymOther
        rw [if_neg hsta']
  have hcnt : ∀ m : Mark, cnt (makeMove now g actor pos).2.board m =
      cnt g.board m +
        (if (if Even g.moveCount then startSym a b st else startSymOther a b st) = m
          then 1 else 0) := by
    intro m
    rw [hboard, cnt_boardSet g.board pos.toNat hp9 _ m hbp, hcur]
    simp
  have hsum1 : ∀ P : Mark,
      ((if P = Mark.X then (1 : Nat) else 0) + if P = Mark.O then 1 else 0) = 1 := by
    intro P
    cases P <;> decide
  refine ⟨a, b, by rw [hpl, hp], hne, hane, hbne, hsa, hsb, hst, ?_, ?_, ?_, ?_⟩
  · rw [hmc', hcnt Mark.X, hcnt Mark.O]
    have hKey := hsum1 (if Even g.moveCount then startSym a b st else startSymOther a b st)
    have hEq : ∀ P m : Mark, (if P = m then (1 : Nat) else 0) = if P = m then 1 else 0 :=
      fun _ _ => rfl
    omega
  · rw [hmc', hcnt (startSym a b st)]
    by_cases he : Even g.moveCount
    · rw [if_pos he] at *
      rw [if_pos rfl]
      have hpar := Nat.even_iff.mp he
      omega
    · rw [if_neg he] at *
      rw [if_neg (Ne.symm hST)]
      have hpar := Nat.odd_iff.mp (Nat.odd_iff_not_even.mpr he)
      omega
  · rw [hmc', hcnt (startSymOther a b st)]
    by_cases he : Even g.moveCount
    · rw [if_pos he] at *
      rw [if_neg hST]
      have hpar := Nat.even_iff.mp he
      omega
    · rw [if_neg he] at *
      rw [if_pos rfl]
      have hpar := Nat.odd_iff.mp (Nat.odd_iff_not_even.mpr he)
      omega
  · intro hplay
    rcases hrest with ⟨hstat, hturn2⟩ | hfin
    · rw [hturn2, hp, hturn', hmc']
      by_cases he : Even g.moveCount
      · have hne2 : ¬ Even (g.moveCount + 1) := by simp [Nat.even_add_one, he]
        rw [if_pos he, if_neg hne2]
        rcases hst with hsta | hstb
        · subst hsta
          rw [(find_next_of_two a b hne).1]
          unfold otherPid
          rw [if_pos rfl]
        · subst hstb
          have hsta' : b.pid ≠ a.pid := Ne.symm hne
          rw [(find_next_of_two a b hne).2]
          unfold otherPid
          rw [if_neg hsta']
      · have he2 : Even (g.moveCount + 1) := Nat.even_add_one.mpr he
        rw [if_neg he, if_pos he2]
        rcases hst with hsta | hstb
        · subst hsta
          unfold otherPid
          rw [if_pos rfl]
          rw [(find_next_of_two a b hne).2]
        · subst hstb
          have hsta' : b.pid ≠ a.pid := Ne.symm hne
          unfold otherPid
          rw [if_neg hsta']
          rw [(find_next_of_two a b hne).1]
    · exact nomatch hfin.symm.trans hplay

lemma inv_drawRestart (now : Nat) (g : Game) (st st2 : String)
    (hinv : Inv g st) (ht2 : (handleDraw now g).turn = some st2) :
    Inv (handleDraw now g) st2 := by
  obtain ⟨a, b, hp, hne, hane, hbne, hsa, hsb, hst, -, -, -, -⟩ := hinv
  have hfields : (handleDraw now g).players = g.players
      ∧ (handleDraw now g).board = emptyBoard
      ∧ (handleDraw now g).moveCount = 0
      ∧ (handleDraw now g).status = Status.playing :=
    ⟨rfl, rfl, rfl, rfl⟩
  have hids : g.players.map (·.pid) = [a.pid, b.pid] := by rw [hp]; rfl
  have hmem : st2 = a.pid ∨ st2 = b.pid := by
    have ht2' := ht2
    unfold handleDraw startTurnTimer clearTurnTimer at ht2'
    dsimp only at ht2'
    cases hfo : (g.players.map (·.pid)).find? (fun id => some id != g.startingPlayer) with
    | none =>
      exfalso
      have hall := List.find?_eq_none.1 hfo
      have hA := hall a.pid (by rw [hids]; simp)
      have hB := hall b.pid (by rw [hids]; simp)
      simp only [bne_iff_ne, ne_eq, not_not] at hA hB
      exact hne (Option.some.inj (hA.trans hB.symm))
    | some o =>
      have homem : o ∈ [a.pid, b.pid] := by
        rw [← hids]
        exact List.mem_of_find?_eq_some hfo
      rw [hfo] at ht2'
      have hone : o = a.pid ∨ o = b.pid := by simpa using homem
      have honempty : o ≠ "" := by
        rcases hone with rfl | rfl
        · exact hane
        · exact hbne
      have ht2'' : (if o = "" then g.startingPlayer else some o) = some st2 := ht2'
      rw [if_neg honempty] at ht2''
      have : o = st2 := Option.some.inj ht2''
      rw [← this]
      exact hone
  refine ⟨a, b, by rw [hfields.1, hp], hne, hane, hbne, hsa, hsb, hmem, ?_, ?_, ?_, ?_⟩
  · rw [hfields.2.1, hfields.2.2.1, cnt_emptyBoard, cnt_emptyBoard]
  · rw [hfields.2.1, hfields.2.2.1, cnt_emptyBoard]
  · rw [hfields.2.1, hfields.2.2.1, cnt_emptyBoard]
  · intro _
    rw [hfields.2.2.1, if_pos even_zero]
    exact ht2

lemma Reach_inv (g : Game) (st : String) (h : Reach g st) : Inv g st := by
  induction h with
  | start g st h0 => exact inv_start g st h0
  | move g st now actor pos hr hacc ih => exact inv_move now g st actor pos ih hacc
  | drawRestart g st st2 now hr hwin ht2 ih => exact inv_drawRestart now g st st2 ih ht2

/-- **C7**: in every state reachable from a fresh two-player round via accepted
moves and draw-triggered restarts — each cell is empty, `X`, or `O`; the X and
O counts differ by at most one with the surplus on the mark of the side that
moved first in the current round; the move counter equals the number of marks;
and whenever the match is `playing` with an even number of marks placed it is
the round starter's turn (so the round starter places every (2n+1)-th mark). -/
theorem reachable_board_balance :
    ∀ (g : Game) (st : String), Reach g st →
      ((∀ i : Fin 9, g.board i = none ∨ g.board i = some Mark.X ∨ g.board i = some Mark.O)
        ∧ (cnt g.board Mark.X ≤ cnt g.board Mark.O + 1
            ∧ cnt g.board Mark.O ≤ cnt g.board Mark.X + 1)
        ∧ ∃ a b : PlayerSlot, g.players = [a, b] ∧ (st = a.pid ∨ st = b.pid) ∧
            a.symbol = Mark.X ∧ b.symbol = Mark.O ∧
            (cnt g.board (startSym a b st) = cnt g.board (startSymOther a b st)
              ∨ cnt g.board (startSym a b st) = cnt g.board (startSymOther a b st) + 1)
            ∧ g.moveCount = cnt g.board Mark.X + cnt g.board Mark.O
            ∧ (g.status = Status.playing → Even g.moveCount → g.turn = some st)) := by
  intro g st h
  obtain ⟨a, b, hp, hne, -, -, hsa, hsb, hst, hmc, hcS, hcO, hturn⟩ := Reach_inv g st h
  refine ⟨?_, ?_, a, b, hp, hst, hsa, hsb, ?_, hmc, ?_⟩
  · intro i
    cases hbi : g.board i with
    | none => exact Or.inl rfl
    | some m =>
      cases m with
      | X => exact Or.inr (Or.inl rfl)
      | O => exact Or.inr (Or.inr rfl)
  · have hcS' := hcS
    have hcO' := hcO
    rcases hst with hsta | hstb
    · have hSX : startSym a b st = Mark.X := by unfold startSym; rw [if_pos hsta]
      have hTO : startSymOther a b st = Mark.O := by unfold startSymOther; rw [if_pos hsta]
      rw [hSX] at hcS'
      rw [hTO] at hcO'
      omega
    · have hst' : st ≠ a.pid := by rw [hstb]; exact Ne.symm hne
      have hSO : startSym a b st = Mark.O := by unfold startSym; rw [if_neg hst']
      have hTX : startSymOther a b st = Mark.X := by unfold startSymOther; rw [if_neg hst']
      rw [hSO] at hcS'
      rw [hTX] at hcO'
      omega
  · omega
  · intro hplay heven
    rw [hturn hplay, if_pos heven]

theorem reachable_board_balance_witness :
    (∀ i : Fin 9, startFixGame.board i = none ∨ startFixGame.board i = some Mark.X ∨
        startFixGame.board i = some Mark.O)
      ∧ (cnt startFixGame.board Mark.X ≤ cnt startFixGame.board Mark.O + 1
          ∧ cnt startFixGame.board Mark.O ≤ cnt startFixGame.board Mark.X + 1)
      ∧ ∃ a b : PlayerSlot, startFixGame.players = [a, b] ∧
          ("p1" = a.pid ∨ "p1" = b.pid) ∧ a.symbol = Mark.X ∧ b.symbol = Mark.O ∧
          (cnt startFixGame.board (startSym a b "p1") =
              cnt startFixGame.board (startSymOther a b "p1")
            ∨ cnt startFixGame.board (startSym a b "p1") =
                cnt startFixGame.board (startSymOther a b "p1") + 1)
          ∧ startFixGame.moveCount =
              cnt startFixGame.board Mark.X + cnt startFixGame.board Mark.O
          ∧ (startFixGame.status = Status.playing → Even startFixGame.moveCount →
              startFixGame.turn = some "p1") :=
  reachable_board_balance startFixGame "p1"
    (Reach.start startFixGame "p1"
      ⟨slotHuman, slotAuto, rfl, by decide, by decide, by decide, rfl, rfl,
        Or.inl rfl, rfl, rfl, rfl, rfl, rfl⟩)

theorem bot_slot_order_and_orientation_witness :
    ((addPlayer (newGame 50) "p1" "alice@wallet" false true).1 = Mark.X
      ∧ (addPlayer (newGame 50) "p1" "alice@wallet" false true).2.players =
          [⟨"p1", "alice@wallet", false, Mark.X, false⟩])
    ∧ ((addPlayer (addPlayer (newGame 50) "p1" "alice@wallet" false true).2
          "bot_1" "ghost7@wallet" true false).1 = Mark.O) :=
  ⟨bot_slot_order_and_orientation.1 (newGame 50) "p1" "alice@wallet" false true rfl,
   (bot_slot_order_and_orientation.2.1 (addPlayer (newGame 50) "p1" "alice@wallet" false true).2
      "bot_1" "ghost7@wallet" true false ⟨"p1", "alice@wallet", false, Mark.X, false⟩
      (by decide)).1⟩

end TTT
